import Mathlib

attribute [local semireducible] Rat.mul Rat.add Rat.sub Rat.inv

/-!
Verification of the profitability calculation engine of the analytics server
(`src/main.py`): the `analisis_360` and `proyeccion_pendientes` tools and the
`---JSON_DATA---` extraction performed by `call_mcp_tool`.

Modelling conventions, fixed for the whole file:
* Python numbers are modelled over `ℚ` (money, rates) and `ℤ`/`ℕ` (counts).
  Python float rounding (`round(x, 2)`, `{:.2f}` formatting) is modelled with
  round-to-nearest over `ℚ`; the tie-breaking rule (Python rounds half to even)
  is immaterial to every property proved here.
* Each upstream HTTP call is modelled by a `FetchResult` record holding the
  fields the source reads from the response (`success`, `text`, `data`,
  `error`); dictionary `.get(key, default)` accesses with a default are
  modelled by `Option` fields where the source uses different defaults in
  different places, and by plain fields holding the default otherwise.
* Report text is modelled as `List Char` built from the exact f-string
  templates of the source.  Python's thousands separator (`{:,.2f}`) is
  reproduced by `natCommaChars`.  `CURRENCY_SYMBOL` is modelled by its default
  value `"Q"` (`os.getenv("CURRENCY_SYMBOL", "Q")`).
* All recursion is structural or fuel-based so every definition evaluates by
  kernel reduction on concrete inputs.
-/

/-! ### Characters, digits and number formatting -/

/-- The characters of a string literal. -/
def chrs (s : String) : List Char := s.data

/-- Left brace character (spelled via its code point). -/
def lbrace : Char := Char.ofNat 123

/-- Right brace character (spelled via its code point). -/
def rbrace : Char := Char.ofNat 125

/-- The decimal digit character for `d` (meaningful for `d < 10`). -/
def digitChar (d : ℕ) : Char := Char.ofNat (48 + d)

/-- The numeric value of a decimal digit character. -/
def digitVal (c : Char) : ℕ := c.toNat - 48

/-- Decimal digits of `n`, most significant first, accumulator style.  The
fuel argument makes the recursion structural; `fuel = n + 1` always suffices. -/
def natDigitsCore : ℕ → ℕ → List Char → List Char
  | 0, _, acc => acc
  | fuel + 1, n, acc =>
    if n < 10 then digitChar n :: acc
    else natDigitsCore fuel (n / 10) (digitChar (n % 10) :: acc)

/-- Decimal representation of a natural number (`str(n)` on a Python int). -/
def natChars (n : ℕ) : List Char := natDigitsCore (n + 1) n []

/-- Decimal representation of an integer (`str(z)` on a Python int). -/
def intChars (z : ℤ) : List Char :=
  (if z < 0 then ['-'] else []) ++ natChars z.natAbs

/-- Insert a comma after every third character of a reversed digit list.
Helper for Python's `{:,}` thousands grouping. -/
def group3 : List Char → List Char
  | d1 :: d2 :: d3 :: d4 :: rest => d1 :: d2 :: d3 :: ',' :: group3 (d4 :: rest)
  | l => l

/-- Decimal representation of `n` with thousands separators (Python `{:,}`). -/
def natCommaChars (n : ℕ) : List Char := (group3 (natChars n).reverse).reverse

/-- Integer with thousands separators (Python `{:,}` on an int). -/
def intCommaChars (z : ℤ) : List Char :=
  (if z < 0 then ['-'] else []) ++ natCommaChars z.natAbs

/-- Round a rational to two decimal places (model of Python `round(x, 2)`). -/
def round2 (q : ℚ) : ℚ := ((round (q * 100) : ℤ) : ℚ) / 100

/-- Fixed two-decimal rendering without thousands separators
(model of Python `{:.2f}`). -/
def fmtF2 (q : ℚ) : List Char :=
  let c : ℤ := round (q * 100)
  (if c < 0 then ['-'] else []) ++
    natChars (c.natAbs / 100) ++ '.' ::
    digitChar (c.natAbs % 100 / 10) :: [digitChar (c.natAbs % 10)]

/-- Fixed two-decimal rendering with thousands separators
(model of Python `{:,.2f}`). -/
def fmtComma2 (q : ℚ) : List Char :=
  let c : ℤ := round (q * 100)
  (if c < 0 then ['-'] else []) ++
    natCommaChars (c.natAbs / 100) ++ '.' ::
    digitChar (c.natAbs % 100 / 10) :: [digitChar (c.natAbs % 10)]

/-- Fixed one-decimal rendering (model of Python `{:.1f}`). -/
def fmtF1 (q : ℚ) : List Char :=
  let c : ℤ := round (q * 10)
  (if c < 0 then ['-'] else []) ++
    natChars (c.natAbs / 10) ++ '.' :: [digitChar (c.natAbs % 10)]

/-- Rounded integer rendering (model of Python `{:.0f}`). -/
def fmtF0 (q : ℚ) : List Char := intChars (round q)

/-! ### Model of the regex fallback in `analisis_360` (src/main.py:170-176)

If the Shopify call succeeds without a structured block, the source lowercases
the free text, checks `"pedidos" in text`, and runs
`re.search(r'(\d+)\s*pedidos?', text)`, taking the digits of the first match. -/

/-- Whitespace class of Python's regex `\s` (ASCII part). -/
def isSpaceChar (c : Char) : Bool :=
  c == ' ' || c == '\t' || c == '\n' || c == '\r' || c == '\x0b' || c == '\x0c'

/-- Substring test: Python's `needle in hay`. -/
def containsSub (n : List Char) : List Char → Bool
  | [] => n.isEmpty
  | c :: rest => n.isPrefixOf (c :: rest) || containsSub n rest

/-- Value of a digit string (Python `int(...)` on a matched digit group). -/
def digitsToNat (ds : List Char) : ℕ :=
  ds.foldl (fun a c => a * 10 + digitVal c) 0

/-- Try to match `\d+\s*pedidos?` anchored at the head of `xs`; returns the
value of the digit group.  The regex allows no backtracking here: `\d+` is
maximal (nothing after it can match a digit) and so is `\s*`. -/
def matchNumPedidos (xs : List Char) : Option ℕ :=
  let ds := xs.takeWhile Char.isDigit
  if ds.isEmpty then none
  else
    let rest := (xs.dropWhile Char.isDigit).dropWhile isSpaceChar
    if (chrs "pedido").isPrefixOf rest then some (digitsToNat ds) else none

/-- Leftmost match of `\d+\s*pedidos?` (model of `re.search`): scan every
start position.  Starting inside a digit run cannot succeed where the run's
start failed, so the plain position scan agrees with `re.search`. -/
def reSearchPedidos : List Char → Option ℕ
  | [] => none
  | c :: rest =>
    match matchNumPedidos (c :: rest) with
    | some n => some n
    | none => reSearchPedidos rest

/-- Lowercased characters of a string (ASCII model of `str.lower()`). -/
def lowerChars (s : String) : List Char := s.data.map Char.toLower

/-- Order count recovered from Shopify free text (src/main.py:170-176). -/
def parseShopifyText (t : String) : ℤ :=
  if containsSub (chrs "pedidos") (lowerChars t) then
    match reSearchPedidos (lowerChars t) with
    | some n => (n : ℤ)
    | none => 0
  else 0

/-! ### Upstream data model

Records mirror the dictionary fields the source reads from each upstream
response.  `FetchResult` mirrors the dictionaries returned by `call_mcp_tool`
(src/main.py:40-69): a success carries `text` and an optional structured
`data` block, a failure carries `error`. -/

/-- One order row of the `get_dropi_orders` payload.  `profit` is `Option`
because the source reads it with `o.get("profit", 0)` here and with a
different default elsewhere; a missing `id` is modelled by `0` (falsy, as in
`if o.get("id")`). -/
structure DropiOrder where
  id : ℤ := 0
  status : String := ""
  profit : Option ℚ := none
deriving DecidableEq

/-- One order row of the `get_orders_financial_details` payload
(src/main.py:223-231 and 484).  `profit` and `shipping_cost` are `Option`
because `analisis_360` defaults them to `0` and `proyeccion_pendientes` to
`100` / `23`. -/
structure FinOrder where
  order_id : ℤ := 0
  status : String := ""
  profit : Option ℚ := none
  shipping_cost : Option ℚ := none
  paid : Bool := false
  payment_amount : ℚ := 0
deriving DecidableEq

/-- Structured block of `get_sales_by_period` (src/main.py:167-168). -/
structure ShopifyData where
  order_count : ℤ := 0
  total_sales : ℚ := 0
deriving DecidableEq

/-- Structured block of `get_dropi_orders` (src/main.py:194-195). -/
structure DropiData where
  total_orders : ℤ := 0
  orders : List DropiOrder := []
deriving DecidableEq

/-- Structured block of `get_orders_financial_details` (src/main.py:221-223). -/
structure FinData where
  orders : List FinOrder := []
deriving DecidableEq

/-- Structured block of `get_dropi_wallet_history` (src/main.py:277-279). -/
structure WalletData where
  total_income : ℚ := 0
  total_expenses : ℚ := 0
deriving DecidableEq

/-- Structured block of `get_ad_spend_by_period` (src/main.py:297-300). -/
structure MetaData where
  spend : ℚ := 0
  clicks : ℤ := 0
  impressions : ℤ := 0
deriving DecidableEq

/-- Result of one `call_mcp_tool` invocation as consumed by the tools:
`{"success": True, "text": ..., "data": ...}` or
`{"success": False, "error": ...}`. -/
structure FetchResult (α : Type) where
  success : Bool := false
  text : String := ""
  data : Option α := none
  error : String := ""
deriving DecidableEq

/-- The upstream environment of one `analisis_360` invocation: the date
arguments and the five upstream responses.  `financial` is the response the
financial-details call would return; the source only issues that call when it
has order ids. -/
structure Env360 where
  start_date : String := ""
  end_date : String := ""
  shopify : FetchResult ShopifyData := {}
  dropi : FetchResult DropiData := {}
  financial : FetchResult FinData := {}
  wallet : FetchResult WalletData := {}
  meta : FetchResult MetaData := {}
deriving DecidableEq

/-- Normalised per-order record built at src/main.py:225-231 (financial path)
and src/main.py:246-251 (fallback path; there `shipping_cost` is `0`, `paid`
is `False` and the missing `payment_amount` key reads back as `0`). -/
structure OrderInfo where
  id : ℤ
  profit : ℚ
  shipping_cost : ℚ
  paid : Bool
  payment_amount : ℚ
deriving DecidableEq

/-! ### `analisis_360`: classification and metrics (src/main.py:137-338) -/

/-- Uppercased string (ASCII model of `str.upper()`, as applied to statuses). -/
def upperStr (s : String) : String := ⟨s.data.map Char.toUpper⟩

/-- Status classes of the `elif` chain at src/main.py:233-240. -/
inductive StatusClass where
  | ent | dev | can | pen
deriving DecidableEq

/-- Classify an (already uppercased) status exactly as the `elif` chain does. -/
def classOf (su : String) : StatusClass :=
  if su ∈ ["ENTREGADO", "DELIVERED", "COMPLETADO"] then .ent
  else if su ∈ ["DEVOLUCION", "DEVUELTO", "RETURNED", "NO ENTREGADO"] then .dev
  else if su ∈ ["CANCELADO", "CANCELLED"] then .can
  else .pen

/-- `shopify_orders_count` (src/main.py:162-176): structured count when
available, regex fallback on the free text otherwise, `0` on failure. -/
def shopify_orders_count (e : Env360) : ℤ :=
  if e.shopify.success then
    match e.shopify.data with
    | some d => d.order_count
    | none => parseShopifyText e.shopify.text
  else 0

/-- `shopify_total_value` (src/main.py:163,168): only set from structured
data; computed by the source but never used downstream. -/
def shopify_total_value (e : Env360) : ℚ :=
  if e.shopify.success then
    match e.shopify.data with
    | some d => d.total_sales
    | none => 0
  else 0

/-- `dropi_orders` (src/main.py:189-195). -/
def dropi_orders (e : Env360) : List DropiOrder :=
  if e.dropi.success then
    match e.dropi.data with
    | some d => d.orders
    | none => []
  else []

/-- `dropi_orders_count` (src/main.py:190-194). -/
def dropi_orders_count (e : Env360) : ℤ :=
  if e.dropi.success then
    match e.dropi.data with
    | some d => d.total_orders
    | none => 0
  else 0

/-- `order_ids` (src/main.py:208): ids of the Dropi orders, truthy ones only. -/
def order_ids (e : Env360) : List ℤ :=
  ((dropi_orders e).filter (fun o => o.id ≠ 0)).map (·.id)

/-- The id list actually sent to `get_orders_financial_details`
(src/main.py:217): `order_ids[:50]`. -/
def financial_request_ids (e : Env360) : List ℤ := (order_ids e).take 50

/-- Financial rows used for classification (src/main.py:211-223): present
only when there were ids to ask about and the call returned structured data. -/
def finOrders (e : Env360) : List FinOrder :=
  if order_ids e ≠ [] ∧ e.financial.success then
    match e.financial.data with
    | some d => d.orders
    | none => []
  else []

/-- The per-order record built from a financial row (src/main.py:225-231). -/
def finInfo (o : FinOrder) : OrderInfo :=
  { id := o.order_id
    profit := o.profit.getD 0
    shipping_cost := o.shipping_cost.getD 0
    paid := o.paid
    payment_amount := o.payment_amount }

/-- The per-order record built from a basic Dropi row in the fallback loop
(src/main.py:246-251). -/
def dropiInfo (o : DropiOrder) : OrderInfo :=
  { id := o.id
    profit := o.profit.getD 0
    shipping_cost := 0
    paid := false
    payment_amount := 0 }

/-- Financial-path classification into one bucket. -/
def finBucket (e : Env360) (c : StatusClass) : List OrderInfo :=
  ((finOrders e).filter (fun o => classOf (upperStr o.status) = c)).map finInfo

/-- Fallback-path classification into one bucket (src/main.py:243-260). -/
def dropiBucket (e : Env360) (c : StatusClass) : List OrderInfo :=
  ((dropi_orders e).filter (fun o => classOf (upperStr o.status) = c)).map dropiInfo

/-- The fallback condition at src/main.py:243: the fallback loop runs when the
financial path produced no delivered, returned or pending orders (`cancelados`
is not consulted). -/
def usaFallback (e : Env360) : Prop :=
  finBucket e .ent = [] ∧ finBucket e .dev = [] ∧ finBucket e .pen = []

instance (e : Env360) : Decidable (usaFallback e) := by
  unfold usaFallback; infer_instance

/-- Final contents of one classification list: the financial-path orders plus,
when the fallback loop ran, the basic-data orders it appended. -/
def bucket (e : Env360) (c : StatusClass) : List OrderInfo :=
  finBucket e c ++ if usaFallback e then dropiBucket e c else []

/-- `entregados` (src/main.py:202,234,254). -/
def entregados (e : Env360) : List OrderInfo := bucket e .ent

/-- `devoluciones` (src/main.py:203,236,256). -/
def devoluciones (e : Env360) : List OrderInfo := bucket e .dev

/-- `pendientes` (src/main.py:204,240,260). -/
def pendientes (e : Env360) : List OrderInfo := bucket e .pen

/-- `cancelados` (src/main.py:205,238,258). -/
def cancelados (e : Env360) : List OrderInfo := bucket e .can

/-- `total_wallet_income` (src/main.py:273-279); never used downstream. -/
def total_wallet_income (e : Env360) : ℚ :=
  if e.wallet.success then
    match e.wallet.data with
    | some d => d.total_income
    | none => 0
  else 0

/-- `meta_spend` (src/main.py:292-298). -/
def meta_spend (e : Env360) : ℚ :=
  if e.meta.success then
    match e.meta.data with
    | some d => d.spend
    | none => 0
  else 0

/-- `meta_clicks` (src/main.py:293-299). -/
def meta_clicks (e : Env360) : ℤ :=
  if e.meta.success then
    match e.meta.data with
    | some d => d.clicks
    | none => 0
  else 0

/-- `meta_impressions` (src/main.py:294-300). -/
def meta_impressions (e : Env360) : ℤ :=
  if e.meta.success then
    match e.meta.data with
    | some d => d.impressions
    | none => 0
  else 0

/-- `cancelaciones_pre_envio = max(0, shopify - dropi)` (src/main.py:307). -/
def cancelaciones_pre_envio (e : Env360) : ℤ :=
  max 0 (shopify_orders_count e - dropi_orders_count e)

/-- `cancelaciones_total` (src/main.py:308). -/
def cancelaciones_total (e : Env360) : ℤ :=
  cancelaciones_pre_envio e + (cancelados e).length

/-- `tasa_cancelacion` (src/main.py:309). -/
def tasa_cancelacion (e : Env360) : ℚ :=
  if shopify_orders_count e > 0 then
    (cancelaciones_total e : ℚ) / (shopify_orders_count e : ℚ) * 100
  else 0

/-- `ganancia_entregados` (src/main.py:312). -/
def ganancia_entregados (e : Env360) : ℚ :=
  ((entregados e).map (·.profit)).sum

/-- `pagados` (src/main.py:315). -/
def pagados (e : Env360) : List OrderInfo := (entregados e).filter (·.paid)

/-- `no_pagados` (src/main.py:316). -/
def no_pagados (e : Env360) : List OrderInfo :=
  (entregados e).filter (fun o => ¬ o.paid)

/-- `monto_pagado` (src/main.py:317). -/
def monto_pagado (e : Env360) : ℚ := ((pagados e).map (·.payment_amount)).sum

/-- `monto_pendiente_pago` (src/main.py:318). -/
def monto_pendiente_pago (e : Env360) : ℚ :=
  ((no_pagados e).map (·.profit)).sum

/-- `fletes_devoluciones` (src/main.py:321-325): real shipping-cost sum of the
returned orders, replaced by `len * 23` when that sum is `0` and returns
exist. -/
def fletes_devoluciones (e : Env360) : ℚ :=
  let s := ((devoluciones e).map (·.shipping_cost)).sum
  if s = 0 ∧ (devoluciones e).length > 0 then ((devoluciones e).length : ℚ) * 23
  else s

/-- `ganancia_potencial_pendientes` (src/main.py:328). -/
def ganancia_potencial_pendientes (e : Env360) : ℚ :=
  ((pendientes e).map (·.profit)).sum

/-- `fletes_potenciales_pendientes` (src/main.py:329). -/
def fletes_potenciales_pendientes (e : Env360) : ℚ :=
  ((pendientes e).map (·.shipping_cost)).sum

/-- `ganancia_confirmada` (src/main.py:332). -/
def ganancia_confirmada (e : Env360) : ℚ :=
  ganancia_entregados e - fletes_devoluciones e

/-- `profit_neto` (src/main.py:333). -/
def profit_neto (e : Env360) : ℚ := ganancia_confirmada e - meta_spend e

/-- `roas` (src/main.py:336). -/
def roas (e : Env360) : ℚ :=
  if meta_spend e > 0 then ganancia_confirmada e / meta_spend e else 0

/-- `cpa_real` (src/main.py:337). -/
def cpa_real (e : Env360) : ℚ :=
  if (entregados e).length > 0 then
    meta_spend e / ((entregados e).length : ℚ)
  else 0

/-- `tasa_entrega` (src/main.py:338). -/
def tasa_entrega (e : Env360) : ℚ :=
  if dropi_orders_count e > 0 then
    ((entregados e).length : ℚ) / (dropi_orders_count e : ℚ) * 100
  else 0

/-- `period_label` (src/main.py:146). -/
def period_label (e : Env360) : String :=
  if e.start_date ≠ e.end_date then e.start_date ++ " al " ++ e.end_date
  else e.start_date

/-! ### `analisis_360`: report rendering (src/main.py:344-437) -/

/-- The configured currency symbol, at its default
(`os.getenv("CURRENCY_SYMBOL", "Q")`, src/main.py:32). -/
def CURRENCY_SYMBOL : String := "Q"

/-- The id list rendered at src/main.py:374-375, present when
`0 < len(no_pagados) <= 10`. -/
def idsLine (e : Env360) : List Char :=
  if 0 < (no_pagados e).length ∧ (no_pagados e).length ≤ 10 then
    chrs "   📋 IDs pendientes: " ++
      List.intercalate (chrs ", ") ((no_pagados e).map (fun o => '#' :: intChars o.id)) ++
      chrs "\n"
  else []

/-- The pending-projection section (src/main.py:400-407), present when
pending orders exist. -/
def pendSection (e : Env360) : List Char :=
  if (pendientes e).length > 0 then
    chrs "\n🔮 PROYECCIÓN PENDIENTES (" ++ natChars (pendientes e).length ++
      chrs " pedidos)\n   Si se entregan todos: +Q" ++
      fmtComma2 (ganancia_potencial_pendientes e) ++
      chrs "\n   Si todos son devolución: -Q" ++
      fmtComma2 (fletes_potenciales_pendientes e) ++
      chrs "\n   \n   💡 Usa \x27proyeccion_pendientes\x27 para escenarios específicos\n"
  else []

/-- The narrative part of the `analisis_360` report: the f-string templates of
src/main.py:344-407, with every interpolation in source order. -/
def narr360 (e : Env360) : List Char :=
  chrs "\n📊 ANÁLISIS 360° - " ++ chrs (period_label e) ++ chrs "\n" ++
  List.replicate 50 '=' ++ chrs "\n\n📦 PEDIDOS\n   Shopify: " ++
  intChars (shopify_orders_count e) ++ chrs " pedidos\n   Dropi: " ++
  intChars (dropi_orders_count e) ++
  chrs " pedidos\n   \n   ❌ Cancelaciones pre-envío: " ++
  intChars (cancelaciones_pre_envio e) ++ chrs "\n   ❌ Cancelados en Dropi: " ++
  natChars (cancelados e).length ++ chrs "\n   📉 Tasa cancelación: " ++
  fmtF1 (tasa_cancelacion e) ++ chrs "%\n\n📊 ESTADOS EN DROPI\n   ✅ Entregados: " ++
  natChars (entregados e).length ++ chrs "\n   ❌ Devoluciones: " ++
  natChars (devoluciones e).length ++ chrs "\n   ⏳ Pendientes: " ++
  natChars (pendientes e).length ++ chrs "\n   🚫 Cancelados: " ++
  natChars (cancelados e).length ++ chrs "\n   \n   📈 Tasa de entrega: " ++
  fmtF1 (tasa_entrega e) ++ chrs "%\n\n💰 GANANCIAS\n   Entregados: Q" ++
  fmtComma2 (ganancia_entregados e) ++ chrs "\n   - Fletes devolución: -Q" ++
  fmtComma2 (fletes_devoluciones e) ++ chrs "\n   = Ganancia confirmada: Q" ++
  fmtComma2 (ganancia_confirmada e) ++ chrs "\n\n💳 PAGOS DE DROPI\n   ✅ Ya pagado: Q" ++
  fmtComma2 (monto_pagado e) ++ chrs " (" ++ natChars (pagados e).length ++
  chrs " pedidos)\n   ⏳ Por pagar: Q" ++ fmtComma2 (monto_pendiente_pago e) ++
  chrs " (" ++ natChars (no_pagados e).length ++ chrs " pedidos)\n" ++
  idsLine e ++
  chrs "\n📢 META ADS\n   💸 Gasto: Q" ++ fmtComma2 (meta_spend e) ++
  chrs "\n   👆 Clics: " ++ intCommaChars (meta_clicks e) ++
  chrs "\n   👀 Impresiones: " ++ intCommaChars (meta_impressions e) ++
  chrs "\n\n📈 MÉTRICAS CLAVE\n   ROAS: " ++ fmtF2 (roas e) ++
  chrs "x (por cada Q1 gastado, recuperas Q" ++ fmtF2 (roas e) ++
  chrs ")\n   CPA real: Q" ++ fmtF2 (cpa_real e) ++
  chrs " (costo por entrega efectiva)\n\n💵 RESULTADO FINAL\n   Ganancia confirmada: Q" ++
  fmtComma2 (ganancia_confirmada e) ++ chrs "\n   - Gasto Meta Ads: -Q" ++
  fmtComma2 (meta_spend e) ++ chrs "\n   " ++ List.replicate 30 '=' ++
  chrs "\n   💰 PROFIT NETO: Q" ++ fmtComma2 (profit_neto e) ++ chrs "\n" ++
  (if profit_neto e > 0 then chrs "\n   ✅ ¡ESTÁS GANANDO DINERO!\n"
   else chrs "\n   ⚠️ ESTÁS EN PÉRDIDA. Revisa tu CPA y tasa de devolución.\n") ++
  pendSection e

/-- The structured summary of the report, mirroring the `json_data` dictionary
(src/main.py:410-433): keys in insertion order, rates and amounts rounded to
two decimals. -/
structure Json360 where
  period : String
  shopify_orders : ℤ
  dropi_orders : ℤ
  cancelaciones_pre_envio : ℤ
  cancelados_dropi : ℤ
  tasa_cancelacion : ℚ
  entregados : ℤ
  devoluciones : ℤ
  pendientes : ℤ
  tasa_entrega : ℚ
  ganancia_entregados : ℚ
  fletes_devoluciones : ℚ
  ganancia_confirmada : ℚ
  monto_pagado : ℚ
  monto_pendiente_pago : ℚ
  meta_spend : ℚ
  roas : ℚ
  cpa_real : ℚ
  profit_neto : ℚ
  pendientes_ganancia_potencial : ℚ
  pendientes_fletes_potenciales : ℚ
  currency : String
deriving DecidableEq

/-- The `json_data` dictionary built at src/main.py:410-433. -/
def json_data (e : Env360) : Json360 :=
  { period := period_label e
    shopify_orders := shopify_orders_count e
    dropi_orders := dropi_orders_count e
    cancelaciones_pre_envio := cancelaciones_pre_envio e
    cancelados_dropi := ((cancelados e).length : ℤ)
    tasa_cancelacion := round2 (tasa_cancelacion e)
    entregados := ((entregados e).length : ℤ)
    devoluciones := ((devoluciones e).length : ℤ)
    pendientes := ((pendientes e).length : ℤ)
    tasa_entrega := round2 (tasa_entrega e)
    ganancia_entregados := round2 (ganancia_entregados e)
    fletes_devoluciones := round2 (fletes_devoluciones e)
    ganancia_confirmada := round2 (ganancia_confirmada e)
    monto_pagado := round2 (monto_pagado e)
    monto_pendiente_pago := round2 (monto_pendiente_pago e)
    meta_spend := round2 (meta_spend e)
    roas := round2 (roas e)
    cpa_real := round2 (cpa_real e)
    profit_neto := round2 (profit_neto e)
    pendientes_ganancia_potencial := round2 (ganancia_potencial_pendientes e)
    pendientes_fletes_potenciales := round2 (fletes_potenciales_pendientes e)
    currency := CURRENCY_SYMBOL }

/-- Consume an expected literal chunk. -/
def expectL (p xs : List Char) : Option (List Char) :=
  if p.isPrefixOf xs then some (xs.drop p.length) else none

/-- Read a JSON string body up to its closing quote (no escapes: the emitted
document contains none). -/
def readUntilQuote (xs : List Char) : Option (List Char × List Char) :=
  match xs.dropWhile (fun c => c ≠ '"') with
  | '"' :: rest => some (xs.takeWhile (fun c => c ≠ '"'), rest)
  | _ => none

/-- Read a nonempty digit run as a natural number. -/
def readNatL (xs : List Char) : Option (ℕ × List Char) :=
  let ds := xs.takeWhile Char.isDigit
  if ds.isEmpty then none else some (digitsToNat ds, xs.dropWhile Char.isDigit)

/-- Read a JSON integer. -/
def readIntL (xs : List Char) : Option (ℤ × List Char) :=
  if xs.head? = some '-' then
    (readNatL (xs.drop 1)).map (fun p => (-(p.1 : ℤ), p.2))
  else (readNatL xs).map (fun p => ((p.1 : ℤ), p.2))

/-- Read an unsigned two-decimal number `d+.dd`. -/
def readQ2Pos (xs : List Char) : Option (ℚ × List Char) := do
  let (n, r1) ← readNatL xs
  match r1 with
  | '.' :: d1 :: d2 :: rest =>
    if d1.isDigit ∧ d2.isDigit then
      some (((n * 100 + digitVal d1 * 10 + digitVal d2 : ℕ) : ℚ) / 100, rest)
    else none
  | _ => none

/-- Read a signed two-decimal number, as `fmtF2` emits. -/
def readQ2L (xs : List Char) : Option (ℚ × List Char) :=
  if xs.head? = some '-' then (readQ2Pos (xs.drop 1)).map (fun p => (-p.1, p.2))
  else readQ2Pos xs

/-- The all-zero summary record the parser starts from. -/
def json360Empty : Json360 :=
  { period := "", shopify_orders := 0, dropi_orders := 0
    cancelaciones_pre_envio := 0, cancelados_dropi := 0, tasa_cancelacion := 0
    entregados := 0, devoluciones := 0, pendientes := 0, tasa_entrega := 0
    ganancia_entregados := 0, fletes_devoluciones := 0, ganancia_confirmada := 0
    monto_pagado := 0, monto_pendiente_pago := 0, meta_spend := 0, roas := 0
    cpa_real := 0, profit_neto := 0, pendientes_ganancia_potencial := 0
    pendientes_fletes_potenciales := 0, currency := "" }

/-- One field of the serialised summary: its key chunk (as `json.dumps` writes
it, separator included) and how to read it from / store it into the record. -/
inductive JField where
  | fStr (key : List Char) (get : Json360 → String) (set : Json360 → String → Json360)
  | fInt (key : List Char) (get : Json360 → ℤ) (set : Json360 → ℤ → Json360)
  | fQ2 (key : List Char) (get : Json360 → ℚ) (set : Json360 → ℚ → Json360)

/-- The serialised text of one field: key, then the value (a string closes
its quote; a two-decimal value prints via `fmtF2`). -/
def fieldChars (j : Json360) : JField → List Char
  | .fStr key get _ => key ++ chrs (get j) ++ ['"']
  | .fInt key get _ => key ++ intChars (get j)
  | .fQ2 key get _ => key ++ fmtF2 (get j)

/-- Parse one field: consume its key chunk, then its value. -/
def stepField : JField → Json360 × List Char → Option (Json360 × List Char)
  | .fStr key _ set, st =>
    (expectL key st.2).bind fun xs =>
    (readUntilQuote xs).map fun p => (set st.1 ⟨p.1⟩, p.2)
  | .fInt key _ set, st =>
    (expectL key st.2).bind fun xs =>
    (readIntL xs).map fun p => (set st.1 p.1, p.2)
  | .fQ2 key _ set, st =>
    (expectL key st.2).bind fun xs =>
    (readQ2L xs).map fun p => (set st.1 p.1, p.2)

/-- The 22 fields of the summary dictionary, in the insertion order of
src/main.py:410-433. -/
def fields360 : List JField :=
  [ .fStr (chrs "\"period\": \"") (fun j => j.period) (fun j v => { j with period := v }),
    .fInt (chrs ", \"shopify_orders\": ") (fun j => j.shopify_orders) (fun j v => { j with shopify_orders := v }),
    .fInt (chrs ", \"dropi_orders\": ") (fun j => j.dropi_orders) (fun j v => { j with dropi_orders := v }),
    .fInt (chrs ", \"cancelaciones_pre_envio\": ") (fun j => j.cancelaciones_pre_envio) (fun j v => { j with cancelaciones_pre_envio := v }),
    .fInt (chrs ", \"cancelados_dropi\": ") (fun j => j.cancelados_dropi) (fun j v => { j with cancelados_dropi := v }),
    .fQ2 (chrs ", \"tasa_cancelacion\": ") (fun j => j.tasa_cancelacion) (fun j v => { j with tasa_cancelacion := v }),
    .fInt (chrs ", \"entregados\": ") (fun j => j.entregados) (fun j v => { j with entregados := v }),
    .fInt (chrs ", \"devoluciones\": ") (fun j => j.devoluciones) (fun j v => { j with devoluciones := v }),
    .fInt (chrs ", \"pendientes\": ") (fun j => j.pendientes) (fun j v => { j with pendientes := v }),
    .fQ2 (chrs ", \"tasa_entrega\": ") (fun j => j.tasa_entrega) (fun j v => { j with tasa_entrega := v }),
    .fQ2 (chrs ", \"ganancia_entregados\": ") (fun j => j.ganancia_entregados) (fun j v => { j with ganancia_entregados := v }),
    .fQ2 (chrs ", \"fletes_devoluciones\": ") (fun j => j.fletes_devoluciones) (fun j v => { j with fletes_devoluciones := v }),
    .fQ2 (chrs ", \"ganancia_confirmada\": ") (fun j => j.ganancia_confirmada) (fun j v => { j with ganancia_confirmada := v }),
    .fQ2 (chrs ", \"monto_pagado\": ") (fun j => j.monto_pagado) (fun j v => { j with monto_pagado := v }),
    .fQ2 (chrs ", \"monto_pendiente_pago\": ") (fun j => j.monto_pendiente_pago) (fun j v => { j with monto_pendiente_pago := v }),
    .fQ2 (chrs ", \"meta_spend\": ") (fun j => j.meta_spend) (fun j v => { j with meta_spend := v }),
    .fQ2 (chrs ", \"roas\": ") (fun j => j.roas) (fun j v => { j with roas := v }),
    .fQ2 (chrs ", \"cpa_real\": ") (fun j => j.cpa_real) (fun j v => { j with cpa_real := v }),
    .fQ2 (chrs ", \"profit_neto\": ") (fun j => j.profit_neto) (fun j v => { j with profit_neto := v }),
    .fQ2 (chrs ", \"pendientes_ganancia_potencial\": ") (fun j => j.pendientes_ganancia_potencial) (fun j v => { j with pendientes_ganancia_potencial := v }),
    .fQ2 (chrs ", \"pendientes_fletes_potenciales\": ") (fun j => j.pendientes_fletes_potenciales) (fun j v => { j with pendientes_fletes_potenciales := v }),
    .fStr (chrs ", \"currency\": \"") (fun j => j.currency) (fun j v => { j with currency := v }) ]

/-- Serialisation of the summary (model of `json.dumps(json_data)`,
src/main.py:435): braces around the fields in insertion order; a two-decimal
value prints with exactly two decimals. -/
def json360Chars (j : Json360) : List Char :=
  lbrace :: ((fields360.map (fieldChars j)).flatten ++ [rbrace])

/-- Run the field parsers in order over a starting state. -/
def loadsAux (fs : List JField) (st : Option (Json360 × List Char)) :
    Option (Json360 × List Char) :=
  fs.foldl (fun acc f => acc.bind (stepField f)) st

/-- Parse the serialised summary document (model of `json.loads` on the
document shape emitted at src/main.py:435, keys in the insertion order
`json.dumps` writes them). -/
def loads360 (xs : List Char) : Option Json360 :=
  (expectL [lbrace] xs).bind fun xs =>
  (loadsAux fields360 (some (json360Empty, xs))).bind fun st =>
  (expectL [rbrace] st.2).bind fun xs =>
  if xs.isEmpty then some st.1 else none

/-- The `---JSON_DATA---` delimiter (src/main.py:56,435). -/
def markerChars : List Char := chrs "---JSON_DATA---"

/-- The complete report text (src/main.py:344-435):
narrative, blank line, marker, newline, serialised summary. -/
def analisis360Chars (e : Env360) : List Char :=
  narr360 e ++ chrs "\n\n" ++ markerChars ++ '\n' :: json360Chars (json_data e)

/-- The `analisis_360` tool (src/main.py:137-437) as a pure function of its
upstream environment.  An empty date models a missing/empty argument
(`if not start_date or not end_date`, src/main.py:143). -/
def analisis_360 (e : Env360) : String :=
  if e.start_date = "" ∨ e.end_date = "" then
    "❌ Se requieren start_date y end_date en formato YYYY-MM-DD"
  else ⟨analisis360Chars e⟩

/-! ### `proyeccion_pendientes` (src/main.py:440-572) -/

/-- The upstream environment of one `proyeccion_pendientes` invocation:
arguments plus the two upstream responses it may consume. -/
structure EnvProy where
  start_date : String := ""
  end_date : String := ""
  escenario_entregas : Option ℤ := none
  escenario_devoluciones : Option ℤ := none
  dropi : FetchResult DropiData := {}
  financial : FetchResult FinData := {}
deriving DecidableEq

/-- `estados_pendientes` (src/main.py:464). -/
def estados_pendientes : List String :=
  ["PENDIENTE", "GUIA_GENERADA", "RECOLECTADO", "EN_RUTA", "EN BODEGA", "EN TRANSITO"]

/-- The Dropi order list read at src/main.py:461.  When the success response
carries no structured block the source crashes there (`None.get`); that case
is routed around this definition by `proyeccion_core`. -/
def dropi_orders_proy (e : EnvProy) : List DropiOrder :=
  match e.dropi.data with
  | some d => d.orders
  | none => []

/-- `pendientes` of the projection tool (src/main.py:464-466): status listed
as pending, or not one of the three resolved statuses. -/
def pendientes_proy (e : EnvProy) : List DropiOrder :=
  (dropi_orders_proy e).filter (fun o =>
    estados_pendientes.contains (upperStr o.status) ||
      !(["ENTREGADO", "DEVOLUCION", "CANCELADO"].contains (upperStr o.status)))

/-- `order_ids` of the projection tool (src/main.py:472). -/
def order_ids_proy (e : EnvProy) : List ℤ :=
  ((pendientes_proy e).filter (fun o => o.id ≠ 0)).map (·.id)

/-- The id list sent to `get_orders_financial_details` (src/main.py:480):
`order_ids[:50]`. -/
def financial_request_ids_proy (e : EnvProy) : List ℤ :=
  (order_ids_proy e).take 50

/-- `pendientes_detalle` (src/main.py:474-484): financial rows, present only
when ids existed and the call returned structured data. -/
def pendientes_detalle (e : EnvProy) : List FinOrder :=
  if order_ids_proy e ≠ [] ∧ e.financial.success then
    match e.financial.data with
    | some d => d.orders
    | none => []
  else []

/-- `total_pendientes` (src/main.py:487-492). -/
def total_pendientes (e : EnvProy) : ℕ :=
  if pendientes_detalle e = [] then (pendientes_proy e).length
  else (pendientes_detalle e).length

/-- `total_ganancia_potencial` (src/main.py:495): per-order profits with the
`100` default, or `len(pendientes) * 100` without detail. -/
def total_ganancia_potencial (e : EnvProy) : ℚ :=
  if pendientes_detalle e ≠ [] then
    ((pendientes_detalle e).map (fun o => o.profit.getD 100)).sum
  else ((pendientes_proy e).length : ℚ) * 100

/-- `total_fletes_potenciales` (src/main.py:496): per-order shipping costs
with the `23` default, or `len(pendientes) * 23` without detail. -/
def total_fletes_potenciales (e : EnvProy) : ℚ :=
  if pendientes_detalle e ≠ [] then
    ((pendientes_detalle e).map (fun o => o.shipping_cost.getD 23)).sum
  else ((pendientes_proy e).length : ℚ) * 23

/-- `ganancia_promedio` (src/main.py:498). -/
def ganancia_promedio (e : EnvProy) : ℚ :=
  if total_pendientes e > 0 then
    total_ganancia_potencial e / (total_pendientes e : ℚ)
  else 0

/-- `flete_promedio` (src/main.py:499). -/
def flete_promedio (e : EnvProy) : ℚ :=
  if total_pendientes e > 0 then
    total_fletes_potenciales e / (total_pendientes e : ℚ)
  else 0

/-- `escenario_100` (src/main.py:515): the 100%-delivery outcome. -/
def escenario_100 (e : EnvProy) : ℚ := total_ganancia_potencial e

/-- `escenario_0` (src/main.py:520): the 100%-return outcome. -/
def escenario_0 (e : EnvProy) : ℚ := - total_fletes_potenciales e

/-- `entregas_80 = int(total_pendientes * 0.8)` (src/main.py:525). -/
def entregas_80 (e : EnvProy) : ℤ := ⌊(total_pendientes e : ℚ) * (8 / 10)⌋

/-- `devoluciones_20` (src/main.py:526). -/
def devoluciones_20 (e : EnvProy) : ℤ := (total_pendientes e : ℤ) - entregas_80 e

/-- `ganancia_80` (src/main.py:527). -/
def ganancia_80 (e : EnvProy) : ℚ := (entregas_80 e : ℚ) * ganancia_promedio e

/-- `perdida_20` (src/main.py:528). -/
def perdida_20 (e : EnvProy) : ℚ := (devoluciones_20 e : ℚ) * flete_promedio e

/-- `neto_80_20` (src/main.py:529). -/
def neto_80_20 (e : EnvProy) : ℚ := ganancia_80 e - perdida_20 e

/-- `entregas_60 = int(total_pendientes * 0.6)` (src/main.py:537). -/
def entregas_60 (e : EnvProy) : ℤ := ⌊(total_pendientes e : ℚ) * (6 / 10)⌋

/-- `devoluciones_40` (src/main.py:538). -/
def devoluciones_40 (e : EnvProy) : ℤ := (total_pendientes e : ℤ) - entregas_60 e

/-- `ganancia_60` (src/main.py:539). -/
def ganancia_60 (e : EnvProy) : ℚ := (entregas_60 e : ℚ) * ganancia_promedio e

/-- `perdida_40` (src/main.py:540). -/
def perdida_40 (e : EnvProy) : ℚ := (devoluciones_40 e : ℚ) * flete_promedio e

/-- `neto_60_40` (src/main.py:541). -/
def neto_60_40 (e : EnvProy) : ℚ := ganancia_60 e - perdida_40 e

/-- `punto_equilibrio` (src/main.py:565): the algebraic breakeven count. -/
def punto_equilibrio (e : EnvProy) : ℚ :=
  ((total_pendientes e : ℚ) * flete_promedio e) /
    (ganancia_promedio e + flete_promedio e)

/-- `porcentaje_minimo` (src/main.py:566). -/
def porcentaje_minimo (e : EnvProy) : ℚ :=
  punto_equilibrio e / (total_pendientes e : ℚ) * 100

/-- The local variables of `proyeccion_pendientes` that feed its report text
(src/main.py:487-566), gathered in one record: the report is a pure rendering
of these values. -/
structure ProyData where
  start_date : String
  end_date : String
  total_pendientes : ℕ
  ganancia_promedio : ℚ
  flete_promedio : ℚ
  total_ganancia_potencial : ℚ
  total_fletes_potenciales : ℚ
  entregas_80 : ℤ
  devoluciones_20 : ℤ
  ganancia_80 : ℚ
  perdida_20 : ℚ
  neto_80_20 : ℚ
  entregas_60 : ℤ
  devoluciones_40 : ℤ
  ganancia_60 : ℚ
  perdida_40 : ℚ
  neto_60_40 : ℚ
  escenario_entregas : Option ℤ
  escenario_devoluciones : Option ℤ
  punto_equilibrio : ℚ
  porcentaje_minimo : ℚ
deriving DecidableEq

/-- The computed report inputs of one invocation (src/main.py:487-566). -/
def proyData (e : EnvProy) : ProyData :=
  { start_date := e.start_date
    end_date := e.end_date
    total_pendientes := total_pendientes e
    ganancia_promedio := ganancia_promedio e
    flete_promedio := flete_promedio e
    total_ganancia_potencial := total_ganancia_potencial e
    total_fletes_potenciales := total_fletes_potenciales e
    entregas_80 := entregas_80 e
    devoluciones_20 := devoluciones_20 e
    ganancia_80 := ganancia_80 e
    perdida_20 := perdida_20 e
    neto_80_20 := neto_80_20 e
    entregas_60 := entregas_60 e
    devoluciones_40 := devoluciones_40 e
    ganancia_60 := ganancia_60 e
    perdida_40 := perdida_40 e
    neto_60_40 := neto_60_40 e
    escenario_entregas := e.escenario_entregas
    escenario_devoluciones := e.escenario_devoluciones
    punto_equilibrio := punto_equilibrio e
    porcentaje_minimo := porcentaje_minimo e }

/-- The caller-supplied scenario section (src/main.py:549-557), present when
both scenario arguments were given. -/
def customSection (d : ProyData) : List Char :=
  match d.escenario_entregas, d.escenario_devoluciones with
  | some ent, some dev =>
    chrs "🎯 TU ESCENARIO (" ++ intChars ent ++ chrs " entregas / " ++
      intChars dev ++ chrs " devoluciones):\n   Ganancia: +Q" ++
      fmtComma2 ((ent : ℚ) * d.ganancia_promedio) ++
      chrs "\n   Pérdida fletes: -Q" ++
      fmtComma2 ((dev : ℚ) * d.flete_promedio) ++
      chrs "\n   NETO: Q" ++
      fmtComma2 ((ent : ℚ) * d.ganancia_promedio - (dev : ℚ) * d.flete_promedio) ++
      chrs "\n\n"
  | _, _ => []

/-- The breakeven section (src/main.py:560-570): rendered only when both
averages are strictly positive, otherwise skipped entirely. -/
def breakevenSection (d : ProyData) : List Char :=
  if d.ganancia_promedio > 0 ∧ d.flete_promedio > 0 then
    chrs "⚖️ PUNTO DE EQUILIBRIO:\n   Necesitas entregar al menos " ++
      fmtF0 d.punto_equilibrio ++ chrs " pedidos (" ++
      fmtF1 d.porcentaje_minimo ++
      chrs "%)\n   para no perder dinero en este lote.\n"
  else []

/-- The projection report rendered from its computed inputs
(src/main.py:501-570). -/
def renderProy (d : ProyData) : List Char :=
  chrs "\n🔮 PROYECCIÓN DE PENDIENTES\n📅 Período: " ++ chrs d.start_date ++
  chrs " al " ++ chrs d.end_date ++ chrs "\n" ++ List.replicate 50 '=' ++
  chrs "\n\n📦 Pedidos pendientes: " ++ natChars d.total_pendientes ++
  chrs "\n💰 Ganancia promedio por pedido: Q" ++ fmtF2 d.ganancia_promedio ++
  chrs "\n🚚 Flete promedio por pedido: Q" ++ fmtF2 d.flete_promedio ++
  chrs "\n\n📊 ESCENARIOS:\n\n" ++
  chrs "✅ Si se entregan TODOS (" ++ natChars d.total_pendientes ++
  chrs "):\n   Ganancia: +Q" ++ fmtComma2 d.total_ganancia_potencial ++
  chrs "\n\n" ++
  chrs "❌ Si TODOS son devolución (" ++ natChars d.total_pendientes ++
  chrs "):\n   Pérdida: -Q" ++ fmtComma2 d.total_fletes_potenciales ++
  chrs "\n\n" ++
  chrs "📈 Escenario 80% entrega / 20% devolución:\n   " ++
  intChars d.entregas_80 ++ chrs " entregas × Q" ++
  fmtF2 d.ganancia_promedio ++ chrs " = +Q" ++ fmtComma2 d.ganancia_80 ++
  chrs "\n   " ++ intChars d.devoluciones_20 ++ chrs " devoluciones × Q" ++
  fmtF2 d.flete_promedio ++ chrs " = -Q" ++ fmtComma2 d.perdida_20 ++
  chrs "\n   NETO: Q" ++ fmtComma2 d.neto_80_20 ++ chrs "\n\n" ++
  chrs "📊 Escenario 60% entrega / 40% devolución:\n   " ++
  intChars d.entregas_60 ++ chrs " entregas × Q" ++
  fmtF2 d.ganancia_promedio ++ chrs " = +Q" ++ fmtComma2 d.ganancia_60 ++
  chrs "\n   " ++ intChars d.devoluciones_40 ++ chrs " devoluciones × Q" ++
  fmtF2 d.flete_promedio ++ chrs " = -Q" ++ fmtComma2 d.perdida_40 ++
  chrs "\n   NETO: Q" ++ fmtComma2 d.neto_60_40 ++ chrs "\n\n" ++
  customSection d ++ breakevenSection d

/-- The full projection report text (src/main.py:501-570). -/
def proyChars (e : EnvProy) : List Char := renderProy (proyData e)

/-- Control flow of `proyeccion_pendientes` up to the report (src/main.py:
443-469).  `none` models the uncaught `AttributeError` raised at line 461
when a successful Dropi response carries no structured block. -/
def proyeccion_core (e : EnvProy) : Option String :=
  if e.start_date = "" ∨ e.end_date = "" then
    some "❌ Se requieren start_date y end_date"
  else if e.dropi.success = false then
    some ("❌ Error consultando Dropi: " ++ e.dropi.error)
  else
    match e.dropi.data with
    | none => none
    | some _ =>
      if pendientes_proy e = [] then
        some ("✅ No hay pedidos pendientes en el período " ++ e.start_date ++
          " al " ++ e.end_date)
      else some ⟨proyChars e⟩

/-- The `proyeccion_pendientes` tool as seen through the dispatcher
(src/main.py:642-650): an uncaught exception becomes an error-text response. -/
def proyeccion_pendientes (e : EnvProy) : String :=
  (proyeccion_core e).getD
    "Error ejecutando proyeccion_pendientes: \x27NoneType\x27 object has no attribute \x27get\x27"

/-! ### Model of `call_mcp_tool`'s structured-block extraction (src/main.py:56-63)

A caller of this server splits the result text on `---JSON_DATA---`, strips
the part after the first marker and JSON-parses it.  `splitOnL` models
Python's `str.split(sep)`; `loads360` models `json.loads` restricted to the
fixed document layout `analisis_360` emits (`json.dumps` writes keys in
insertion order). -/

/-- Python `str.split(sep)` on character lists, fuel-based (`fuel = length`
always suffices; each step consumes at least one character). -/
def splitOnAux (sep : List Char) : ℕ → List Char → List (List Char)
  | _, [] => [[]]
  | 0, xs => [xs]
  | fuel + 1, x :: rest =>
    if sep ≠ [] ∧ sep.isPrefixOf (x :: rest) then
      [] :: splitOnAux sep fuel ((x :: rest).drop sep.length)
    else
      match splitOnAux sep fuel rest with
      | [] => [[x]]
      | y :: ys => (x :: y) :: ys

/-- Python `str.split(sep)`. -/
def splitOnL (sep xs : List Char) : List (List Char) :=
  splitOnAux sep xs.length xs

/-- Whitespace stripped by Python `str.strip()` (ASCII part). -/
def isPyWs (c : Char) : Bool :=
  c == ' ' || c == '\t' || c == '\n' || c == '\r' || c == '\x0b' || c == '\x0c'

/-- Python `str.strip()`. -/
def stripChars (xs : List Char) : List Char :=
  ((xs.dropWhile isPyWs).reverse.dropWhile isPyWs).reverse

/-- The structured-data extraction a caller performs on a result string
(src/main.py:56-63): if the marker occurs, split on it, strip the part after
the first marker and parse it; any failure yields no data. -/
def extractJsonData (s : String) : Option Json360 :=
  if containsSub markerChars s.data then
    match splitOnL markerChars s.data with
    | _ :: p1 :: _ => loads360 (stripChars p1)
    | _ => none
  else none

/-! ### Auxiliary notions for the extraction proof -/

/-- The head of a list, if any, fails the predicate (used to delimit greedy
digit runs). -/
def headFails (p : Char → Bool) : List Char → Prop
  | [] => True
  | c :: _ => p c = false

instance (p : Char → Bool) (l : List Char) : Decidable (headFails p l) := by
  unfold headFails
  cases l <;> infer_instance

/-- The key chunk of a field descriptor. -/
def keyOf : JField → List Char
  | .fStr key _ _ => key
  | .fInt key _ _ => key
  | .fQ2 key _ _ => key

/-- A key chunk parses unambiguously after a number: nonempty and not
starting with a digit. -/
def keyOk (f : JField) : Prop := headFails Char.isDigit (keyOf f) ∧ keyOf f ≠ []

instance (f : JField) : Decidable (keyOk f) := by
  unfold keyOk
  infer_instance

/-- The value of a field is faithfully re-readable: strings carry no quote,
two-decimal values are fixed by rounding. -/
def fieldOk (j : Json360) : JField → Prop
  | .fStr _ get _ => '"' ∉ (get j).data
  | .fInt _ _ _ => True
  | .fQ2 _ get _ => round2 (get j) = get j

/-- Store into `a` the value field `f` carries in `j`. -/
def applyField (j a : Json360) : JField → Json360
  | .fStr _ get set => set a (get j)
  | .fInt _ get set => set a (get j)
  | .fQ2 _ get set => set a (get j)

/-- Store into `a` all values the fields carry in `j`. -/
def applyAll (fs : List JField) (a j : Json360) : Json360 :=
  fs.foldl (applyField j) a

/-! ### Argument well-formedness and concrete environments used by the
verification below -/

/-- A present ISO-style date argument: nonempty, made of digits and dashes
(the `YYYY-MM-DD` inputs the tools document). -/
def DateOk (s : String) : Prop :=
  s ≠ "" ∧ ∀ c ∈ s.data, c.isDigit = true ∨ c = '-'

instance (s : String) : Decidable (DateOk s) := by
  unfold DateOk; infer_instance

/-- A batch of `n` pending Dropi orders with ids `1..n`. -/
def mkPend (n : ℕ) : List DropiOrder :=
  (List.range n).map (fun k => { id := (k : ℤ) + 1, status := "PENDIENTE" })

/-- A projection environment with 30 pending orders and no financial detail:
the averages fall back to the global constants 100 and 23. -/
def envC2 : EnvProy :=
  { start_date := "2025-12-01", end_date := "2025-12-15",
    dropi := { success := true, data := some { total_orders := 30, orders := mkPend 30 } },
    financial := { success := false, error := "timeout" } }

/-- A projection environment with two pending orders and full financial
detail. -/
def envC3w : EnvProy :=
  { start_date := "2025-12-01", end_date := "2025-12-15",
    dropi := { success := true, data := some { total_orders := 2, orders := mkPend 2 } },
    financial := { success := true, data := some { orders :=
      [ { order_id := 1, status := "PENDIENTE", profit := some 120, shipping_cost := some 20 },
        { order_id := 2, status := "GUIA_GENERADA", profit := some 95, shipping_cost := some 26 } ] } } }

/-- An analysis environment whose only returned order reports a zero
shipping cost, next to one delivered order. -/
def envC4x : Env360 :=
  { start_date := "2025-12-01", end_date := "2025-12-02",
    shopify := { success := true, data := some { order_count := 2, total_sales := 400 } },
    dropi := { success := true, data := some { total_orders := 2, orders :=
      [ { id := 1, status := "ENTREGADO" }, { id := 2, status := "DEVOLUCION" } ] } },
    financial := { success := true, data := some { orders :=
      [ { order_id := 1, status := "ENTREGADO", profit := some 100, shipping_cost := some 20 },
        { order_id := 2, status := "DEVOLUCION", profit := some 0, shipping_cost := some 0 } ] } },
    wallet := { success := true, data := some {} },
    meta := { success := true, data := some { spend := 40 } } }

/-- An analysis environment with real (nonzero) return shipping costs and
positive ad spend. -/
def envC4w : Env360 :=
  { start_date := "2025-12-01", end_date := "2025-12-02",
    shopify := { success := true, data := some { order_count := 3, total_sales := 600 } },
    dropi := { success := true, data := some { total_orders := 3, orders :=
      [ { id := 1, status := "ENTREGADO" }, { id := 2, status := "DEVOLUCION" },
        { id := 3, status := "ENTREGADO" } ] } },
    financial := { success := true, data := some { orders :=
      [ { order_id := 1, status := "ENTREGADO", profit := some 100, shipping_cost := some 20, paid := true, payment_amount := 100 },
        { order_id := 2, status := "DEVOLUCION", profit := some 0, shipping_cost := some 25 },
        { order_id := 3, status := "ENTREGADO", profit := some 80, shipping_cost := some 22 } ] } },
    wallet := { success := true, data := some {} },
    meta := { success := true, data := some { spend := 50, clicks := 10, impressions := 100 } } }

/-- The projection environment of the degraded (no-detail) run: same pending
orders as `envC8b`, but the financial-details call failed. -/
def envC8a : EnvProy :=
  { start_date := "2025-12-01", end_date := "2025-12-15",
    dropi := { success := true, data := some { total_orders := 2, orders := mkPend 2 } },
    financial := { success := false, error := "HTTP 500" } }

/-- The projection environment of a real-data run whose per-order details
happen to equal the fallback constants (profit 100, shipping 23). -/
def envC8b : EnvProy :=
  { start_date := "2025-12-01", end_date := "2025-12-15",
    dropi := { success := true, data := some { total_orders := 2, orders := mkPend 2 } },
    financial := { success := true, data := some { orders :=
      [ { order_id := 1, status := "PENDIENTE", profit := some 100, shipping_cost := some 23 },
        { order_id := 2, status := "PENDIENTE", profit := some 100, shipping_cost := some 23 } ] } } }

/-- A projection environment whose Dropi orders fetch failed. -/
def envC1x : EnvProy :=
  { start_date := "2025-12-01", end_date := "2025-12-15",
    dropi := { success := false, error := "timeout" } }

/-- An analysis environment in which every upstream call failed. -/
def envC1w : Env360 :=
  { start_date := "2025-12-01", end_date := "2025-12-15",
    shopify := { success := false, error := "HTTP 502" },
    dropi := { success := false, error := "timeout" },
    financial := { success := false, error := "timeout" },
    wallet := { success := false, error := "HTTP 500" },
    meta := { success := false, error := "HTTP 503" } }

/-- A small fully-populated analysis environment. -/
def envW : Env360 :=
  { start_date := "2025-01-01", end_date := "2025-01-05",
    shopify := { success := true, data := some { order_count := 10, total_sales := 500 } },
    dropi := { success := true, data := some { total_orders := 8, orders :=
      [ { id := 1, status := "ENTREGADO" }, { id := 2, status := "DEVOLUCION" },
        { id := 3, status := "PENDIENTE" }, { id := 4, status := "ENTREGADO" } ] } },
    financial := { success := true, data := some { orders :=
      [ { order_id := 1, status := "ENTREGADO", profit := some 120, shipping_cost := some 20, paid := true, payment_amount := 118 },
        { order_id := 2, status := "DEVUELTO", profit := some 90, shipping_cost := some 25 },
        { order_id := 3, status := "EN RUTA", profit := some 80, shipping_cost := some 23 },
        { order_id := 4, status := "DELIVERED", profit := some 110, shipping_cost := some 21 } ] } },
    wallet := { success := true, data := some { total_income := 300, total_expenses := 50 } },
    meta := { success := true, data := some { spend := 150, clicks := 1234, impressions := 56789 } } }

/-! ### Zero/default upstream payloads (degradation targets)

A failed or unparseable fetch contributes, per src/main.py:162-300, exactly
the values these successful-but-empty payloads carry. -/

/-- Empty successful Shopify payload. -/
def zeroShopify : FetchResult ShopifyData :=
  { success := true, data := some { order_count := 0, total_sales := 0 } }

/-- Empty successful Dropi payload. -/
def zeroDropi : FetchResult DropiData :=
  { success := true, data := some { total_orders := 0, orders := [] } }

/-- Empty successful financial-details payload. -/
def zeroFin : FetchResult FinData :=
  { success := true, data := some { orders := [] } }

/-- Empty successful wallet payload. -/
def zeroWallet : FetchResult WalletData :=
  { success := true, data := some { total_income := 0, total_expenses := 0 } }

/-- Empty successful Meta-ads payload. -/
def zeroMeta : FetchResult MetaData :=
  { success := true, data := some { spend := 0, clicks := 0, impressions := 0 } }

/-! ### Verification -/

/-- Claim C9: for every pair of Shopify and Dropi order counts — including
inconsistent data where the Dropi count exceeds the Shopify count — the
pre-shipment cancellation count is `max(0, shopify − dropi)`, hence never
negative, and the cancellation rate is never negative. -/
theorem C9_cancellation_nonneg (e : Env360) :
    cancelaciones_pre_envio e =
      max 0 (shopify_orders_count e - dropi_orders_count e) ∧
    0 ≤ cancelaciones_pre_envio e ∧ 0 ≤ tasa_cancelacion e := by
  refine ⟨rfl, le_max_left _ _, ?_⟩
  unfold tasa_cancelacion
  split
  · next h =>
    have h1 : (0 : ℚ) ≤ (cancelaciones_total e : ℚ) := by
      have : (0 : ℤ) ≤ cancelaciones_total e :=
        add_nonneg (le_max_left _ _) (Int.ofNat_nonneg _)
      exact_mod_cast this
    have h2 : (0 : ℚ) ≤ (shopify_orders_count e : ℚ) := by
      exact_mod_cast le_of_lt h
    exact mul_nonneg (div_nonneg h1 h2) (by norm_num)
  · exact le_refl 0

/-- Claim C10: both tools request per-order financial details for at most the
first 50 order ids (`order_ids[:50]`), so orders beyond the first 50 are never
part of the financial-details request. -/
theorem C10_financial_batch_limit (e : Env360) (ep : EnvProy) :
    financial_request_ids e = (order_ids e).take 50 ∧
    (financial_request_ids e).length ≤ 50 ∧
    financial_request_ids_proy ep = (order_ids_proy ep).take 50 ∧
    (financial_request_ids_proy ep).length ≤ 50 := by
  refine ⟨rfl, ?_, rfl, ?_⟩
  · exact List.length_take_le 50 (order_ids e)
  · exact List.length_take_le 50 (order_ids_proy ep)

/-- Claim C6: for every non-negative ad spend, the real CPA is
`spend / delivered` when there are delivered orders and `0` otherwise. -/
theorem C6_cpa_real (e : Env360) (hs : 0 ≤ meta_spend e) :
    (0 < (entregados e).length →
      cpa_real e = meta_spend e / ((entregados e).length : ℚ)) ∧
    ((entregados e).length = 0 → cpa_real e = 0) := by
  constructor
  · intro h
    unfold cpa_real
    rw [if_pos h]
  · intro h
    unfold cpa_real
    rw [if_neg (by rw [h]; exact lt_irrefl 0)]

/-- Witness for C6 on a concrete environment with two delivered orders and
ad spend 150. -/
theorem C6_cpa_real_witness :
    (0 < (entregados envW).length →
      cpa_real envW = meta_spend envW / ((entregados envW).length : ℚ)) ∧
    ((entregados envW).length = 0 → cpa_real envW = 0) :=
  C6_cpa_real envW (by decide)

/-- Claim C5: whenever at most as many orders are delivered as Dropi reports
for the period, the delivery rate is `delivered / orders × 100`, lies in
`[0, 100]`, and is `0` when the order count is `0` (no division by zero). -/
theorem C5_delivery_rate (e : Env360)
    (h : ((entregados e).length : ℤ) ≤ dropi_orders_count e) :
    0 ≤ tasa_entrega e ∧ tasa_entrega e ≤ 100 ∧
    (dropi_orders_count e = 0 → tasa_entrega e = 0) ∧
    (0 < dropi_orders_count e →
      tasa_entrega e =
        ((entregados e).length : ℚ) / (dropi_orders_count e : ℚ) * 100) := by
  unfold tasa_entrega
  split
  · next hd =>
    have hd' : (0 : ℚ) < (dropi_orders_count e : ℚ) := by exact_mod_cast hd
    have hle : ((entregados e).length : ℚ) ≤ (dropi_orders_count e : ℚ) := by
      exact_mod_cast h
    refine ⟨?_, ?_, ?_, fun _ => rfl⟩
    · exact mul_nonneg (div_nonneg (by positivity) hd'.le) (by norm_num)
    · calc ((entregados e).length : ℚ) / (dropi_orders_count e : ℚ) * 100
          ≤ 1 * 100 := by
            apply mul_le_mul_of_nonneg_right _ (by norm_num)
            exact (div_le_one hd').mpr hle
        _ = 100 := one_mul 100
    · intro h0
      exact absurd (h0 ▸ hd) (lt_irrefl 0)
  · next hd =>
    refine ⟨le_refl 0, by norm_num, fun _ => rfl, fun hpos => absurd hpos hd⟩

/-- Witness for C5 on a concrete environment: 2 delivered of 8 reported. -/
theorem C5_delivery_rate_witness :
    0 ≤ tasa_entrega envW ∧ tasa_entrega envW ≤ 100 ∧
    (dropi_orders_count envW = 0 → tasa_entrega envW = 0) ∧
    (0 < dropi_orders_count envW →
      tasa_entrega envW =
        ((entregados envW).length : ℚ) / (dropi_orders_count envW : ℚ) * 100) :=
  C5_delivery_rate envW (by decide)

/-- Claim C2: when both averages are strictly positive the breakeven count is
`(totalPending × avgShipping) / (avgProfit + avgShipping)`, whose denominator
cannot be zero, and it solves the breakeven equation
`x·avgProfit = (total − x)·avgShipping`; when either average is not strictly
positive the breakeven section is skipped; with averages 100 and 23 over 30
pending orders the count is `30·23/123 = 690/123 ≈ 5.6`. -/
theorem C2_breakeven :
    (∀ e : EnvProy, ganancia_promedio e > 0 → flete_promedio e > 0 →
      punto_equilibrio e =
        ((total_pendientes e : ℚ) * flete_promedio e) /
          (ganancia_promedio e + flete_promedio e) ∧
      ganancia_promedio e + flete_promedio e ≠ 0 ∧
      punto_equilibrio e * ganancia_promedio e =
        ((total_pendientes e : ℚ) - punto_equilibrio e) * flete_promedio e) ∧
    (∀ e : EnvProy, ¬ (ganancia_promedio e > 0 ∧ flete_promedio e > 0) →
      breakevenSection (proyData e) = []) ∧
    punto_equilibrio envC2 = 690 / 123 ∧
    |punto_equilibrio envC2 - 28 / 5| < 1 / 10 := by
  refine ⟨?_, ?_, by decide, by decide⟩
  · intro e hg hf
    have hsum : (0 : ℚ) < ganancia_promedio e + flete_promedio e := add_pos hg hf
    refine ⟨rfl, ne_of_gt hsum, ?_⟩
    unfold punto_equilibrio
    field_simp
    ring
  · intro e h
    unfold breakevenSection
    rw [if_neg]
    simpa [proyData] using h

/-- Witness for C2 on the 30-pending fallback environment
(averages 100 and 23). -/
theorem C2_breakeven_witness :
    punto_equilibrio envC2 =
      ((total_pendientes envC2 : ℚ) * flete_promedio envC2) /
        (ganancia_promedio envC2 + flete_promedio envC2) ∧
    ganancia_promedio envC2 + flete_promedio envC2 ≠ 0 ∧
    punto_equilibrio envC2 * ganancia_promedio envC2 =
      ((total_pendientes envC2 : ℚ) - punto_equilibrio envC2) *
        flete_promedio envC2 :=
  C2_breakeven.1 envC2 (by decide) (by decide)

/-- Claim C3: with per-order financial detail present, the 100%-delivery
outcome is exactly the sum of the pending orders' profits and the 100%-return
outcome is exactly the negative of the sum of their shipping costs. -/
theorem C3_extreme_scenarios (e : EnvProy)
    (hne : pendientes_detalle e ≠ [])
    (hfin : ∀ o ∈ pendientes_detalle e, o.profit.isSome ∧ o.shipping_cost.isSome) :
    escenario_100 e =
      (((pendientes_detalle e).map (fun o => o.profit.getD 0)).sum) ∧
    escenario_0 e =
      -(((pendientes_detalle e).map (fun o => o.shipping_cost.getD 0)).sum) := by
  have h1 : (pendientes_detalle e).map (fun o => o.profit.getD 100) =
      (pendientes_detalle e).map (fun o => o.profit.getD 0) :=
    List.map_congr_left (fun o ho => by
      rcases Option.isSome_iff_exists.mp (hfin o ho).1 with ⟨v, hv⟩
      simp [hv])
  have h2 : (pendientes_detalle e).map (fun o => o.shipping_cost.getD 23) =
      (pendientes_detalle e).map (fun o => o.shipping_cost.getD 0) :=
    List.map_congr_left (fun o ho => by
      rcases Option.isSome_iff_exists.mp (hfin o ho).2 with ⟨v, hv⟩
      simp [hv])
  unfold escenario_100 escenario_0 total_ganancia_potencial total_fletes_potenciales
  rw [if_pos hne, if_pos hne, h1, h2]
  exact ⟨rfl, rfl⟩

/-- Witness for C3 on a concrete two-order detailed environment. -/
theorem C3_extreme_scenarios_witness :
    escenario_100 envC3w =
      (((pendientes_detalle envC3w).map (fun o => o.profit.getD 0)).sum) ∧
    escenario_0 envC3w =
      -(((pendientes_detalle envC3w).map (fun o => o.shipping_cost.getD 0)).sum) :=
  C3_extreme_scenarios envC3w (by decide) (by decide)

/-- Counterexample to claim C4 as stated: in `envC4x` the only returned order
reports shipping cost `0`, so the source replaces the zero sum by the
`23`-per-return estimate (src/main.py:323-325) and the confirmed profit is
`100 − 23 = 77`, not `deliveredProfitSum − returnedShippingCostSum = 100`. -/
theorem C4_confirmed_profit_cex :
    ((entregados envC4x).map (fun o => o.profit)).sum = 100 ∧
    ((devoluciones envC4x).map (fun o => o.shipping_cost)).sum = 0 ∧
    (devoluciones envC4x).length = 1 ∧
    ganancia_confirmada envC4x = 77 ∧
    ganancia_confirmada envC4x ≠
      ((entregados envC4x).map (fun o => o.profit)).sum -
        ((devoluciones envC4x).map (fun o => o.shipping_cost)).sum := by
  decide

/-- Claim C4, amended: for every environment, the net profit is the confirmed
profit minus the Meta spend, ROAS is `confirmed / spend` for positive spend
and `0` for zero spend; the confirmed profit is the delivered profit sum minus
the returned shipping-cost sum, except when that sum is zero while returns
exist — then the source (src/main.py:323-325) estimates `23` per returned
order and the confirmed profit is the delivered profit sum minus
`returnCount * 23`. -/
theorem C4_profit_roas (e : Env360) :
    profit_neto e = ganancia_confirmada e - meta_spend e ∧
    (0 < meta_spend e → roas e = ganancia_confirmada e / meta_spend e) ∧
    (meta_spend e = 0 → roas e = 0) ∧
    (¬ (((devoluciones e).map (fun o => o.shipping_cost)).sum = 0 ∧
        (devoluciones e).length > 0) →
      ganancia_confirmada e =
        ((entregados e).map (fun o => o.profit)).sum -
          ((devoluciones e).map (fun o => o.shipping_cost)).sum) ∧
    (((devoluciones e).map (fun o => o.shipping_cost)).sum = 0 →
      (devoluciones e).length > 0 →
      ganancia_confirmada e =
        ((entregados e).map (fun o => o.profit)).sum -
          ((devoluciones e).length : ℚ) * 23) := by
  refine ⟨rfl, ?_, ?_, ?_, ?_⟩
  · intro hpos
    unfold roas
    rw [if_pos hpos]
  · intro h0
    unfold roas
    rw [if_neg (by rw [h0]; exact lt_irrefl 0)]
  · intro h
    unfold ganancia_confirmada fletes_devoluciones ganancia_entregados
    rw [if_neg h]
  · intro h1 h2
    unfold ganancia_confirmada fletes_devoluciones ganancia_entregados
    rw [if_pos ⟨h1, h2⟩]

/-- Witness for the amended C4: the normal branch and positive-spend ROAS at
`envC4w` (real nonzero return shipping cost), and the exceptional
`23`-per-return branch at `envC4x` (zero reported shipping cost with one
return). -/
theorem C4_profit_roas_witness :
    (ganancia_confirmada envC4w =
      ((entregados envC4w).map (fun o => o.profit)).sum -
        ((devoluciones envC4w).map (fun o => o.shipping_cost)).sum) ∧
    (ganancia_confirmada envC4x =
      ((entregados envC4x).map (fun o => o.profit)).sum -
        ((devoluciones envC4x).length : ℚ) * 23) ∧
    profit_neto envC4x = ganancia_confirmada envC4x - meta_spend envC4x ∧
    roas envC4w = ganancia_confirmada envC4w / meta_spend envC4w ∧
    roas envC4x = ganancia_confirmada envC4x / meta_spend envC4x :=
  ⟨(C4_profit_roas envC4w).2.2.2.1 (by decide),
   (C4_profit_roas envC4x).2.2.2.2 (by decide) (by decide),
   (C4_profit_roas envC4x).1,
   (C4_profit_roas envC4w).2.1 (by decide),
   (C4_profit_roas envC4x).2.1 (by decide)⟩

/-- A needle occurs in any text that starts with it. -/
theorem containsSub_append_self (x post : List Char) :
    containsSub x (x ++ post) = true := by
  cases x with
  | nil => cases post <;> simp [containsSub]
  | cons c t =>
    simp only [List.cons_append, containsSub, Bool.or_eq_true]
    exact Or.inl (List.isPrefixOf_iff_prefix.mpr (by
      simpa using List.prefix_append (c :: t) post))

/-- A needle occurs in any text it is spliced into. -/
theorem containsSub_mid (pre x post : List Char) :
    containsSub x (pre ++ (x ++ post)) = true := by
  induction pre with
  | nil => simpa using containsSub_append_self x post
  | cons c t ih =>
    simp only [List.cons_append, containsSub, Bool.or_eq_true]
    exact Or.inr ih

/-- With present dates and a failed Dropi fetch, `proyeccion_pendientes`
takes the early-error branch of src/main.py:458-459. -/
theorem proyeccion_core_error (e : EnvProy)
    (h1 : e.start_date ≠ "") (h2 : e.end_date ≠ "")
    (h3 : e.dropi.success = false) :
    proyeccion_core e = some ("❌ Error consultando Dropi: " ++ e.dropi.error) := by
  unfold proyeccion_core
  rw [if_neg (by simp [h1, h2]), if_pos h3]

/-- With present dates, a successful structured Dropi response and a nonempty
pending pool, `proyeccion_pendientes` renders the full report. -/
theorem proyeccion_core_report (e : EnvProy)
    (h1 : e.start_date ≠ "") (h2 : e.end_date ≠ "")
    (h3 : e.dropi.success = true) (d : DropiData)
    (h4 : e.dropi.data = some d) (h5 : pendientes_proy e ≠ []) :
    proyeccion_core e = some ⟨proyChars e⟩ := by
  unfold proyeccion_core
  rw [if_neg (by simp [h1, h2]), if_neg (by simp [h3])]
  simp only [h4]
  rw [if_neg h5]

/-- Claim C8 (code bug): in the degraded run `envC8a` no per-order financial
detail is available, the averages are the global fallback constants 100 and
23, and the produced report is character-for-character identical to the
real-data report of `envC8b` — the degraded mode is not flagged to the
caller in any way. -/
theorem C8_fallback_unflagged :
    pendientes_detalle envC8a = [] ∧
    ganancia_promedio envC8a = 100 ∧ flete_promedio envC8a = 23 ∧
    pendientes_detalle envC8b ≠ [] ∧
    proyeccion_pendientes envC8a = proyeccion_pendientes envC8b := by
  refine ⟨by decide, by decide, by decide, by decide, ?_⟩
  have hD : proyData envC8a = proyData envC8b := by decide
  have ha : proyeccion_core envC8a = some ⟨proyChars envC8a⟩ :=
    proyeccion_core_report envC8a (by decide) (by decide) (by decide) _ rfl (by decide)
  have hb : proyeccion_core envC8b = some ⟨proyChars envC8b⟩ :=
    proyeccion_core_report envC8b (by decide) (by decide) (by decide) _ rfl (by decide)
  unfold proyeccion_pendientes
  rw [ha, hb]
  simp only [Option.getD_some]
  unfold proyChars
  rw [hD]

/-- Counterexample to claim C1 as stated: when the Dropi orders fetch fails,
`proyeccion_pendientes` does not degrade and produce a report — it returns
the early error message of src/main.py:458-459. -/
theorem C1_proyeccion_error_cex :
    proyeccion_pendientes envC1x = "❌ Error consultando Dropi: timeout" := by
  unfold proyeccion_pendientes
  rw [proyeccion_core_error envC1x (by decide) (by decide) rfl]
  rfl

/-- Congruence of the rendered report: the `analisis_360` output depends on
the environment only through the dates and the per-input values the source
extracts at src/main.py:162-300 (Shopify count, Dropi orders and count,
financial rows, Meta spend/clicks/impressions). -/
theorem analisis_360_congr (e e' : Env360)
    (hsd : e.start_date = e'.start_date) (hed : e.end_date = e'.end_date)
    (hsc : shopify_orders_count e = shopify_orders_count e')
    (hdo : dropi_orders e = dropi_orders e')
    (hdc : dropi_orders_count e = dropi_orders_count e')
    (hfo : finOrders e = finOrders e')
    (hms : meta_spend e = meta_spend e')
    (hmc : meta_clicks e = meta_clicks e')
    (hmi : meta_impressions e = meta_impressions e') :
    analisis_360 e = analisis_360 e' := by
  have hbk : ∀ c, bucket e c = bucket e' c := by
    intro c
    simp only [bucket, finBucket, dropiBucket, usaFallback, hdo, hfo]
  have hent : entregados e = entregados e' := hbk _
  have hdev : devoluciones e = devoluciones e' := hbk _
  have hpen : pendientes e = pendientes e' := hbk _
  have hcan : cancelados e = cancelados e' := hbk _
  have hpag : pagados e = pagados e' := by unfold pagados; rw [hent]
  have hnop : no_pagados e = no_pagados e' := by unfold no_pagados; rw [hent]
  have hcpe : cancelaciones_pre_envio e = cancelaciones_pre_envio e' := by
    unfold cancelaciones_pre_envio; rw [hsc, hdc]
  have hct : cancelaciones_total e = cancelaciones_total e' := by
    unfold cancelaciones_total; rw [hcpe, hcan]
  have htc : tasa_cancelacion e = tasa_cancelacion e' := by
    unfold tasa_cancelacion; rw [hsc, hct]
  have hge : ganancia_entregados e = ganancia_entregados e' := by
    unfold ganancia_entregados; rw [hent]
  have hfd : fletes_devoluciones e = fletes_devoluciones e' := by
    unfold fletes_devoluciones; rw [hdev]
  have hgc : ganancia_confirmada e = ganancia_confirmada e' := by
    unfold ganancia_confirmada; rw [hge, hfd]
  have hpn : profit_neto e = profit_neto e' := by
    unfold profit_neto; rw [hgc, hms]
  have hroas : roas e = roas e' := by unfold roas; rw [hgc, hms]
  have hcpa : cpa_real e = cpa_real e' := by unfold cpa_real; rw [hent, hms]
  have hte : tasa_entrega e = tasa_entrega e' := by unfold tasa_entrega; rw [hent, hdc]
  have hmp : monto_pagado e = monto_pagado e' := by unfold monto_pagado; rw [hpag]
  have hmpp : monto_pendiente_pago e = monto_pendiente_pago e' := by
    unfold monto_pendiente_pago; rw [hnop]
  have hgpp : ganancia_potencial_pendientes e = ganancia_potencial_pendientes e' := by
    unfold ganancia_potencial_pendientes; rw [hpen]
  have hfpp : fletes_potenciales_pendientes e = fletes_potenciales_pendientes e' := by
    unfold fletes_potenciales_pendientes; rw [hpen]
  have hpl : period_label e = period_label e' := by
    unfold period_label; rw [hsd, hed]
  have hnarr : narr360 e = narr360 e' := by
    unfold narr360 idsLine pendSection
    rw [hpl, hsc, hdc, hcpe, hcan, htc, hent, hdev, hpen, hte, hge, hfd, hgc,
      hmp, hpag, hmpp, hnop, hms, hmc, hmi, hroas, hcpa, hpn, hgpp, hfpp]
  have hjson : json_data e = json_data e' := by
    unfold json_data
    rw [hpl, hsc, hdc, hcpe, hcan, htc, hent, hdev, hpen, hte, hge, hfd, hgc,
      hmp, hmpp, hms, hroas, hcpa, hpn, hgpp, hfpp]
  have hchars : analisis360Chars e = analisis360Chars e' := by
    unfold analisis360Chars
    rw [hnarr, hjson]
  unfold analisis_360
  rw [hsd, hed, hchars]

/-- Claim C1, amended: with valid dates `analisis_360` always renders the full
report, marker block included; each upstream input degrades independently — a
transport-failed fetch (and likewise a successful fetch with no structured
payload) yields exactly the report of the same environment with that one input
replaced by its zero/default payload, the other four inputs untouched, except
that an unparseable Shopify payload is first salvaged by the regex fallback on
its free text (src/main.py:170-176) and only degrades to zero when that finds
nothing; the zero/default payloads carry zero counts, empty lists and zero
spend.  `proyeccion_pendientes`, by contrast, returns the early error message
of src/main.py:458-459 (no report) when the Dropi orders fetch reports
failure. -/
theorem C1_failure_degradation :
    (∀ e : Env360, e.start_date ≠ "" → e.end_date ≠ "" →
      analisis_360 e = ⟨analisis360Chars e⟩ ∧
      containsSub markerChars (analisis360Chars e) = true) ∧
    (∀ (e : Env360) (s : FetchResult ShopifyData), s.success = false →
      analisis_360 { e with shopify := s } =
        analisis_360 { e with shopify := zeroShopify }) ∧
    (∀ (e : Env360) (s : FetchResult ShopifyData), s.success = true →
      s.data = none →
      shopify_orders_count { e with shopify := s } = parseShopifyText s.text ∧
      (parseShopifyText s.text = 0 →
        analisis_360 { e with shopify := s } =
          analisis_360 { e with shopify := zeroShopify })) ∧
    (∀ (e : Env360) (s : FetchResult DropiData),
      s.success = false ∨ s.data = none →
      analisis_360 { e with dropi := s } =
        analisis_360 { e with dropi := zeroDropi }) ∧
    (∀ (e : Env360) (s : FetchResult FinData),
      s.success = false ∨ s.data = none →
      analisis_360 { e with financial := s } =
        analisis_360 { e with financial := zeroFin }) ∧
    (∀ (e : Env360) (s : FetchResult WalletData),
      analisis_360 { e with wallet := s } =
        analisis_360 { e with wallet := zeroWallet }) ∧
    (∀ (e : Env360) (s : FetchResult MetaData),
      s.success = false ∨ s.data = none →
      analisis_360 { e with meta := s } =
        analisis_360 { e with meta := zeroMeta }) ∧
    (∀ e : Env360,
      shopify_orders_count { e with shopify := zeroShopify } = 0 ∧
      dropi_orders { e with dropi := zeroDropi } = [] ∧
      dropi_orders_count { e with dropi := zeroDropi } = 0 ∧
      finOrders { e with financial := zeroFin } = [] ∧
      total_wallet_income { e with wallet := zeroWallet } = 0 ∧
      meta_spend { e with meta := zeroMeta } = 0 ∧
      meta_clicks { e with meta := zeroMeta } = 0 ∧
      meta_impressions { e with meta := zeroMeta } = 0) ∧
    (∀ ep : EnvProy, ep.start_date ≠ "" → ep.end_date ≠ "" →
      ep.dropi.success = false →
      proyeccion_pendientes ep = "❌ Error consultando Dropi: " ++ ep.dropi.error) := by
  refine ⟨?_, ?_, ?_, ?_, ?_, ?_, ?_, ?_, ?_⟩
  · intro e h1 h2
    constructor
    · unfold analisis_360
      rw [if_neg (by simp [h1, h2])]
    · have hsplit : analisis360Chars e =
          (narr360 e ++ chrs "\n\n") ++
            (markerChars ++ '\n' :: json360Chars (json_data e)) := by
        simp [analisis360Chars, List.append_assoc]
      rw [hsplit]
      exact containsSub_mid _ _ _
  · intro e s hs
    refine analisis_360_congr _ _ rfl rfl ?_ rfl rfl rfl rfl rfl rfl
    simp [shopify_orders_count, hs, zeroShopify]
  · intro e s hs1 hs2
    refine ⟨by simp [shopify_orders_count, hs1, hs2], ?_⟩
    intro h0
    refine analisis_360_congr _ _ rfl rfl ?_ rfl rfl rfl rfl rfl rfl
    simp [shopify_orders_count, hs1, hs2, h0, zeroShopify]
  · intro e s hs
    refine analisis_360_congr _ _ rfl rfl rfl ?_ ?_ ?_ rfl rfl rfl
    · rcases hs with h | h <;> simp [dropi_orders, h, zeroDropi]
    · rcases hs with h | h <;> simp [dropi_orders_count, h, zeroDropi]
    · rcases hs with h | h <;> simp [finOrders, order_ids, dropi_orders, h, zeroDropi]
  · intro e s hs
    refine analisis_360_congr _ _ rfl rfl rfl rfl rfl ?_ rfl rfl rfl
    rcases hs with h | h <;> simp [finOrders, h, zeroFin]
  · intro e s
    exact analisis_360_congr _ _ rfl rfl rfl rfl rfl rfl rfl rfl rfl
  · intro e s hs
    refine analisis_360_congr _ _ rfl rfl rfl rfl rfl rfl ?_ ?_ ?_
    · rcases hs with h | h <;> simp [meta_spend, h, zeroMeta]
    · rcases hs with h | h <;> simp [meta_clicks, h, zeroMeta]
    · rcases hs with h | h <;> simp [meta_impressions, h, zeroMeta]
  · intro e
    refine ⟨rfl, rfl, rfl, ?_, rfl, rfl, rfl, rfl⟩
    simp [finOrders, zeroFin]
  · intro ep h1 h2 h3
    unfold proyeccion_pendientes
    rw [proyeccion_core_error ep h1 h2 h3]
    exact Option.getD_some

/-- Witness for the amended C1: each degradation case applied at a concrete
populated environment (failed or unparseable fetches over `envW`), the regex
salvage of a textual Shopify payload, and the failed-Dropi projection
environment yielding the error message. -/
theorem C1_failure_degradation_witness :
    (analisis_360 envC1w = ⟨analisis360Chars envC1w⟩ ∧
      containsSub markerChars (analisis360Chars envC1w) = true) ∧
    analisis_360 { envW with shopify := { success := false, error := "HTTP 500" } } =
      analisis_360 { envW with shopify := zeroShopify } ∧
    shopify_orders_count
        { envW with shopify := { success := true, text := "hay 7 pedidos", data := none } } =
      parseShopifyText "hay 7 pedidos" ∧
    analisis_360 { envW with shopify := { success := true, text := "sin datos", data := none } } =
      analisis_360 { envW with shopify := zeroShopify } ∧
    analisis_360 { envW with dropi := { success := false, error := "timeout" } } =
      analisis_360 { envW with dropi := zeroDropi } ∧
    analisis_360 { envW with financial := { success := true, text := "plain", data := none } } =
      analisis_360 { envW with financial := zeroFin } ∧
    analisis_360 { envW with wallet := { success := false } } =
      analisis_360 { envW with wallet := zeroWallet } ∧
    analisis_360 { envW with meta := { success := false, error := "HTTP 429" } } =
      analisis_360 { envW with meta := zeroMeta } ∧
    meta_spend { envW with meta := zeroMeta } = 0 ∧
    proyeccion_pendientes envC1x = "❌ Error consultando Dropi: " ++ envC1x.dropi.error :=
  ⟨C1_failure_degradation.1 envC1w (by decide) (by decide),
   C1_failure_degradation.2.1 envW _ rfl,
   (C1_failure_degradation.2.2.1 envW _ rfl rfl).1,
   (C1_failure_degradation.2.2.1 envW _ rfl rfl).2 (by decide),
   C1_failure_degradation.2.2.2.1 envW _ (Or.inl rfl),
   C1_failure_degradation.2.2.2.2.1 envW _ (Or.inr rfl),
   C1_failure_degradation.2.2.2.2.2.1 envW _,
   C1_failure_degradation.2.2.2.2.2.2.1 envW _ (Or.inl rfl),
   (C1_failure_degradation.2.2.2.2.2.2.2.1 envW).2.2.2.2.2.1,
   C1_failure_degradation.2.2.2.2.2.2.2.2 envC1x (by decide) (by decide) rfl⟩

/-! ### Decimal rendering round-trip -/

/-- A digit character carries its digit and is a digit. -/
theorem digitChar_spec (d : ℕ) (h : d < 10) :
    (digitChar d).isDigit = true ∧ digitVal (digitChar d) = d := by
  interval_cases d <;> exact ⟨by decide, by decide⟩

/-- The accumulator of `natDigitsCore` rides along on the right, and the fuel
is irrelevant once sufficient. -/
theorem natDigitsCore_acc (n : ℕ) : ∀ (f : ℕ) (acc : List Char), n < f →
    natDigitsCore f n acc = natChars n ++ acc := by
  induction n using Nat.strong_induction_on with
  | _ n ih =>
    intro f acc hf
    match f, hf with
    | f + 1, _ =>
      by_cases h10 : n < 10
      · simp only [natDigitsCore, natChars, if_pos h10]
        rfl
      · have hn10 : n / 10 < n := Nat.div_lt_self (by omega) (by omega)
        simp only [natDigitsCore, natChars, if_neg h10]
        rw [ih (n / 10) hn10 f _ (by omega),
          ih (n / 10) hn10 n _ (by omega)]
        simp [List.append_assoc]

/-- One unfolding of `natChars`, last digit exposed. -/
theorem natChars_unfold (n : ℕ) :
    natChars n =
      (if n < 10 then [] else natChars (n / 10)) ++ [digitChar (n % 10)] := by
  by_cases h10 : n < 10
  · rw [if_pos h10, List.nil_append]
    show natDigitsCore (n + 1) n [] = _
    simp only [natDigitsCore, if_pos h10]
    rw [Nat.mod_eq_of_lt h10]
  · rw [if_neg h10]
    show natDigitsCore (n + 1) n [] = _
    simp only [natDigitsCore, if_neg h10]
    exact natDigitsCore_acc (n / 10) n _ (by omega)

/-- Decimal renderings are nonempty. -/
theorem natChars_ne_nil (n : ℕ) : natChars n ≠ [] := by
  rw [natChars_unfold]
  simp

/-- Every character of a decimal rendering is a digit. -/
theorem natChars_digits (n : ℕ) : ∀ c ∈ natChars n, c.isDigit = true := by
  induction n using Nat.strong_induction_on with
  | _ n ih =>
    intro c hc
    rw [natChars_unfold] at hc
    rcases List.mem_append.mp hc with h | h
    · by_cases h10 : n < 10
      · simp [if_pos h10] at h
      · exact ih (n / 10) (Nat.div_lt_self (by omega) (by omega)) c
          (by simpa [if_neg h10] using h)
    · rw [List.mem_singleton] at h
      subst h
      exact (digitChar_spec _ (Nat.mod_lt _ (by omega))).1

/-- Reading back the decimal rendering recovers the number. -/
theorem digitsToNat_natChars (n : ℕ) : digitsToNat (natChars n) = n := by
  suffices h : ∀ m, ∀ a : ℕ,
      (natChars m).foldl (fun a c => a * 10 + digitVal c) a =
        a * 10 ^ (natChars m).length + m by
    simpa [digitsToNat] using h n 0
  intro m
  induction m using Nat.strong_induction_on with
  | _ m ih =>
    intro a
    rw [natChars_unfold, List.foldl_append]
    by_cases h10 : m < 10
    · simp only [if_pos h10, List.foldl_nil, List.foldl_cons, List.nil_append,
        List.length_cons, List.length_nil, pow_one, Nat.zero_add]
      rw [(digitChar_spec _ (Nat.mod_lt _ (by omega))).2, Nat.mod_eq_of_lt h10]
    · have hm10 : m / 10 < m := Nat.div_lt_self (by omega) (by omega)
      simp only [if_neg h10, List.foldl_cons, List.foldl_nil,
        List.length_append, List.length_cons, List.length_nil, Nat.zero_add]
      rw [ih (m / 10) hm10 a, (digitChar_spec _ (Nat.mod_lt _ (by omega))).2]
      have h2 : m / 10 * 10 + m % 10 = m := by omega
      calc (a * 10 ^ (natChars (m / 10)).length + m / 10) * 10 + m % 10
          = a * (10 ^ (natChars (m / 10)).length * 10) +
              (m / 10 * 10 + m % 10) := by ring
        _ = a * 10 ^ ((natChars (m / 10)).length + 1) + m := by
            rw [h2, pow_succ]

/-- A run satisfying `p` followed by a failing head splits `takeWhile` /
`dropWhile` exactly at the boundary. -/
theorem takeWhile_append_all {p : Char → Bool} (a b : List Char)
    (ha : ∀ c ∈ a, p c = true) (hb : headFails p b) :
    (a ++ b).takeWhile p = a ∧ (a ++ b).dropWhile p = b := by
  induction a with
  | nil =>
    cases b with
    | nil => simp
    | cons c t =>
      have hc : p c = false := hb
      simp [List.takeWhile_cons, List.dropWhile_cons, hc]
  | cons x xs ih =>
    have hx := ha x (by simp)
    have ih' := ih (fun c hc => ha c (by simp [hc]))
    simp [List.takeWhile_cons, List.dropWhile_cons, hx, ih'.1, ih'.2]

/-- `readNatL` consumes exactly a rendered natural number. -/
theorem readNatL_append (n : ℕ) (rest : List Char)
    (hrest : headFails Char.isDigit rest) :
    readNatL (natChars n ++ rest) = some (n, rest) := by
  obtain ⟨ht, hd⟩ := takeWhile_append_all (natChars n) rest (natChars_digits n) hrest
  unfold readNatL
  simp only [ht, hd]
  rw [if_neg (by simp [List.isEmpty_iff, natChars_ne_nil n]), digitsToNat_natChars]

/-- A decimal rendering never starts with a minus sign. -/
theorem head_not_dash (n : ℕ) (l : List Char) :
    ¬ ((natChars n ++ l).head? = some '-') := by
  rcases hnc : natChars n with _ | ⟨c0, t⟩
  · exact absurd hnc (natChars_ne_nil _)
  · have hdig : c0.isDigit = true :=
      natChars_digits n c0 (by rw [hnc]; exact List.mem_cons_self c0 t)
    simp only [List.cons_append, List.head?_cons, Option.some_inj]
    intro h
    subst h
    exact absurd hdig (by decide)

/-- `readIntL` consumes exactly a rendered integer. -/
theorem readIntL_append (z : ℤ) (rest : List Char)
    (hrest : headFails Char.isDigit rest) :
    readIntL (intChars z ++ rest) = some (z, rest) := by
  by_cases hz : z < 0
  · have hshape : intChars z ++ rest = '-' :: (natChars z.natAbs ++ rest) := by
      simp [intChars, if_pos hz]
    have habs : -(z.natAbs : ℤ) = z := by omega
    rw [hshape]
    unfold readIntL
    rw [if_pos (by simp), List.drop_one, List.tail_cons,
      readNatL_append z.natAbs rest hrest]
    simp only [Option.map_some']
    rw [habs]
  · have hshape : intChars z ++ rest = natChars z.natAbs ++ rest := by
      simp [intChars, if_neg hz]
    have habs : (z.natAbs : ℤ) = z := by omega
    rw [hshape]
    unfold readIntL
    rw [if_neg (head_not_dash _ _), readNatL_append z.natAbs rest hrest]
    simp only [Option.map_some']
    rw [habs]

/-- `readQ2Pos` consumes exactly an unsigned fixed-two-decimal rendering. -/
theorem readQ2Pos_append (m d1 d2 : ℕ) (h1 : d1 < 10) (h2 : d2 < 10)
    (rest : List Char) :
    readQ2Pos (natChars m ++ '.' :: digitChar d1 :: digitChar d2 :: rest) =
      some (((m * 100 + d1 * 10 + d2 : ℕ) : ℚ) / 100, rest) := by
  have hrest : headFails Char.isDigit
      ('.' :: digitChar d1 :: digitChar d2 :: rest) := rfl
  unfold readQ2Pos
  rw [readNatL_append m _ hrest]
  simp only [Option.bind_eq_bind, Option.some_bind]
  rw [if_pos ⟨(digitChar_spec d1 h1).1, (digitChar_spec d2 h2).1⟩,
    (digitChar_spec d1 h1).2, (digitChar_spec d2 h2).2]

/-- `readQ2L` reads back exactly the two-decimal rendering of `c / 100`. -/
theorem readQ2L_print (c : ℤ) (rest : List Char) :
    readQ2L (((if c < 0 then ['-'] else []) ++
      (natChars (c.natAbs / 100) ++ '.' ::
        digitChar (c.natAbs % 100 / 10) :: [digitChar (c.natAbs % 10)])) ++ rest) =
      some ((c : ℚ) / 100, rest) := by
  have h1 : c.natAbs % 100 / 10 < 10 := by omega
  have h2 : c.natAbs % 10 < 10 := by omega
  have habs : c.natAbs / 100 * 100 + c.natAbs % 100 / 10 * 10 + c.natAbs % 10 =
      c.natAbs := by omega
  have hval : ((c.natAbs / 100 * 100 + c.natAbs % 100 / 10 * 10 +
      c.natAbs % 10 : ℕ) : ℚ) = ((c.natAbs : ℕ) : ℚ) := by
    exact_mod_cast congrArg (fun k : ℕ => (k : ℚ)) habs
  by_cases hc : c < 0
  · have hcast : ((c.natAbs : ℕ) : ℚ) = -(c : ℚ) := by
      rw [Int.cast_natAbs, abs_of_neg hc]
      push_cast
      ring
    have hshape : ((if c < 0 then ['-'] else []) ++
        (natChars (c.natAbs / 100) ++ '.' ::
          digitChar (c.natAbs % 100 / 10) :: [digitChar (c.natAbs % 10)])) ++ rest =
        '-' :: (natChars (c.natAbs / 100) ++ '.' ::
          digitChar (c.natAbs % 100 / 10) :: digitChar (c.natAbs % 10) :: rest) := by
      simp [if_pos hc]
    rw [hshape]
    unfold readQ2L
    rw [if_pos (by simp), List.drop_one, List.tail_cons,
      readQ2Pos_append _ _ _ h1 h2 rest]
    simp only [Option.map_some']
    rw [hval, hcast, neg_div, neg_neg]
  · have hcast : ((c.natAbs : ℕ) : ℚ) = (c : ℚ) := by
      rw [Int.cast_natAbs, abs_of_nonneg (not_lt.mp hc)]
    have hshape : ((if c < 0 then ['-'] else []) ++
        (natChars (c.natAbs / 100) ++ '.' ::
          digitChar (c.natAbs % 100 / 10) :: [digitChar (c.natAbs % 10)])) ++ rest =
        natChars (c.natAbs / 100) ++ '.' ::
          digitChar (c.natAbs % 100 / 10) :: digitChar (c.natAbs % 10) :: rest := by
      simp [if_neg hc]
    rw [hshape]
    unfold readQ2L
    rw [if_neg (head_not_dash _ _), readQ2Pos_append _ _ _ h1 h2 rest]
    rw [hval, hcast]

/-- `readQ2L` reads back exactly what `fmtF2` wrote: the value rounded to
two decimals. -/
theorem readQ2L_fmtF2 (q : ℚ) (rest : List Char) :
    readQ2L (fmtF2 q ++ rest) = some (round2 q, rest) := by
  have h := readQ2L_print (round (q * 100)) rest
  simpa [fmtF2, round2] using h

/-- `expectL` consumes exactly the expected chunk. -/
theorem expectL_append (p rest : List Char) :
    expectL p (p ++ rest) = some rest := by
  unfold expectL
  rw [if_pos (List.isPrefixOf_iff_prefix.mpr (List.prefix_append p rest)),
    List.drop_left]

/-- `readUntilQuote` consumes exactly a quote-free string body and its
closing quote. -/
theorem readUntilQuote_append (s rest : List Char) (hq : '"' ∉ s) :
    readUntilQuote (s ++ '"' :: rest) = some (s, rest) := by
  obtain ⟨ht, hd⟩ := takeWhile_append_all (p := fun c => decide (c ≠ '"'))
    s ('"' :: rest)
    (fun c hc => decide_eq_true (fun h => hq (by rw [h] at hc; exact hc)))
    rfl
  unfold readUntilQuote
  simp only [ht, hd]

/-- Parsing one string field consumes exactly its serialised text. -/
theorem stepField_str (key : List Char) (g : Json360 → String)
    (s : Json360 → String → Json360) (j a : Json360) (tail : List Char)
    (hq : '"' ∉ (g j).data) :
    stepField (.fStr key g s) (a, key ++ (chrs (g j) ++ '"' :: tail)) =
      some (s a (g j), tail) := by
  simp only [stepField, chrs]
  rw [expectL_append]
  simp only [Option.some_bind]
  rw [readUntilQuote_append _ _ hq]
  rfl

/-- Parsing one integer field consumes exactly its serialised text. -/
theorem stepField_int (key : List Char) (g : Json360 → ℤ)
    (s : Json360 → ℤ → Json360) (j a : Json360) (tail : List Char)
    (htail : headFails Char.isDigit tail) :
    stepField (.fInt key g s) (a, key ++ (intChars (g j) ++ tail)) =
      some (s a (g j), tail) := by
  simp only [stepField]
  rw [expectL_append]
  simp only [Option.some_bind]
  rw [readIntL_append _ _ htail]
  rfl

/-- Parsing one two-decimal field consumes exactly its serialised text; the
value must be fixed by two-decimal rounding. -/
theorem stepField_q2 (key : List Char) (g : Json360 → ℚ)
    (s : Json360 → ℚ → Json360) (j a : Json360) (tail : List Char)
    (hfix : round2 (g j) = g j) :
    stepField (.fQ2 key g s) (a, key ++ (fmtF2 (g j) ++ tail)) =
      some (s a (g j), tail) := by
  simp only [stepField]
  rw [expectL_append]
  simp only [Option.some_bind]
  rw [readQ2L_fmtF2]
  simp [hfix]

/-- Every field's serialised text starts with its key chunk. -/
theorem fieldChars_key (j : Json360) (f : JField) :
    ∃ v, fieldChars j f = keyOf f ++ v := by
  cases f with
  | fStr key g s =>
    exact ⟨chrs (g j) ++ ['"'], by simp [fieldChars, keyOf, List.append_assoc]⟩
  | fInt key g s => exact ⟨intChars (g j), rfl⟩
  | fQ2 key g s => exact ⟨fmtF2 (g j), rfl⟩

/-- Running the field parsers over the serialised fields recovers, field by
field, the values they carry. -/
theorem loadsAux_spec (j : Json360) : ∀ (fs : List JField) (a : Json360)
    (rest : List Char),
    (∀ f ∈ fs, fieldOk j f) → (∀ f ∈ fs, keyOk f) →
    headFails Char.isDigit rest →
    loadsAux fs (some (a, (fs.map (fieldChars j)).flatten ++ rest)) =
      some (applyAll fs a j, rest) := by
  intro fs
  induction fs with
  | nil =>
    intro a rest _ _ _
    simp [loadsAux, applyAll]
  | cons f fs ih =>
    intro a rest hok hkey hrest
    have htail : headFails Char.isDigit
        ((fs.map (fieldChars j)).flatten ++ rest) := by
      cases fs with
      | nil => simpa using hrest
      | cons f' fs' =>
        obtain ⟨hk1, hk2⟩ := hkey f' (by simp)
        obtain ⟨v, hv⟩ := fieldChars_key j f'
        rcases hkc : keyOf f' with _ | ⟨c, t⟩
        · exact absurd hkc hk2
        · rw [hkc] at hv hk1
          simp only [List.map_cons, List.flatten_cons, hv, List.cons_append,
            List.append_assoc]
          exact hk1
    have hstep : stepField f
        (a, fieldChars j f ++ ((fs.map (fieldChars j)).flatten ++ rest)) =
        some (applyField j a f, (fs.map (fieldChars j)).flatten ++ rest) := by
      cases f with
      | fStr key g s =>
        have hq := hok _ (List.mem_cons_self _ _)
        have hsh : fieldChars j (.fStr key g s) ++
            ((fs.map (fieldChars j)).flatten ++ rest) =
            key ++ (chrs (g j) ++ '"' ::
              ((fs.map (fieldChars j)).flatten ++ rest)) := by
          simp [fieldChars, List.append_assoc]
        rw [hsh, stepField_str key g s j a _ hq]
        rfl
      | fInt key g s =>
        have hsh : fieldChars j (.fInt key g s) ++
            ((fs.map (fieldChars j)).flatten ++ rest) =
            key ++ (intChars (g j) ++
              ((fs.map (fieldChars j)).flatten ++ rest)) := by
          simp [fieldChars, List.append_assoc]
        rw [hsh, stepField_int key g s j a _ htail]
        rfl
      | fQ2 key g s =>
        have hfix := hok _ (List.mem_cons_self _ _)
        have hsh : fieldChars j (.fQ2 key g s) ++
            ((fs.map (fieldChars j)).flatten ++ rest) =
            key ++ (fmtF2 (g j) ++
              ((fs.map (fieldChars j)).flatten ++ rest)) := by
          simp [fieldChars, List.append_assoc]
        rw [hsh, stepField_q2 key g s j a _ hfix]
        rfl
    have hrec := ih (applyField j a f) rest
      (fun f hf => hok f (List.mem_cons_of_mem _ hf))
      (fun f hf => hkey f (List.mem_cons_of_mem _ hf))
      hrest
    show loadsAux (f :: fs)
        (some (a, ((f :: fs).map (fieldChars j)).flatten ++ rest)) =
      some (applyAll (f :: fs) a j, rest)
    simp only [List.map_cons, List.flatten_cons, List.append_assoc]
    unfold loadsAux
    rw [List.foldl_cons]
    simp only [Option.some_bind]
    rw [hstep]
    exact hrec

/-- Storing every field of `j` into any record rebuilds `j`. -/
theorem applyAll_fields360 (a j : Json360) : applyAll fields360 a j = j := by
  cases a
  cases j
  rfl

/-- Parsing the serialised summary document recovers the summary record,
provided its strings are quote-free and its two-decimal values are fixed by
rounding. -/
theorem loads360_json360Chars (j : Json360)
    (hok : ∀ f ∈ fields360, fieldOk j f) :
    loads360 (json360Chars j) = some j := by
  have hkeys : ∀ f ∈ fields360, keyOk f := by decide
  unfold loads360 json360Chars
  rw [show (lbrace :: ((fields360.map (fieldChars j)).flatten ++ [rbrace])) =
    [lbrace] ++ ((fields360.map (fieldChars j)).flatten ++ [rbrace]) from rfl]
  rw [expectL_append]
  simp only [Option.some_bind]
  rw [loadsAux_spec j fields360 json360Empty [rbrace] hok hkeys (by decide)]
  simp only [Option.some_bind]
  rw [show expectL [rbrace] [rbrace] = some [] from by decide]
  simp only [Option.some_bind, List.isEmpty_nil, if_pos]
  rw [applyAll_fields360]

/-! ### Splitting the result text on the marker -/

/-- The fuel of `splitOnAux` is irrelevant once it covers the input length. -/
theorem splitOnAux_fuel (sep : List Char) (hsep : sep ≠ []) :
    ∀ (f1 : ℕ) (xs : List Char) (f2 : ℕ), xs.length ≤ f1 → xs.length ≤ f2 →
      splitOnAux sep f1 xs = splitOnAux sep f2 xs := by
  intro f1
  induction f1 with
  | zero =>
    intro xs f2 h1 _
    have hx : xs = [] := List.length_eq_zero.mp (Nat.le_zero.mp h1)
    subst hx
    cases f2 <;> rfl
  | succ f1 ih =>
    intro xs f2 h1 h2
    cases xs with
    | nil => cases f2 <;> rfl
    | cons x rest =>
      cases f2 with
      | zero => simp at h2
      | succ f2 =>
        have hslen : 1 ≤ sep.length := List.length_pos.mpr hsep
        simp only [splitOnAux]
        by_cases hp : sep ≠ [] ∧ sep.isPrefixOf (x :: rest)
        · rw [if_pos hp, if_pos hp]
          have hlen : ((x :: rest).drop sep.length).length ≤ f1 := by
            simp only [List.length_drop, List.length_cons]
            simp only [List.length_cons] at h1
            omega
          have hlen2 : ((x :: rest).drop sep.length).length ≤ f2 := by
            simp only [List.length_drop, List.length_cons]
            simp only [List.length_cons] at h2
            omega
          rw [ih _ f2 hlen hlen2]
        · rw [if_neg hp, if_neg hp]
          have hrest1 : rest.length ≤ f1 := by
            simp only [List.length_cons] at h1
            omega
          have hrest2 : rest.length ≤ f2 := by
            simp only [List.length_cons] at h2
            omega
          rw [ih rest f2 hrest1 hrest2]

/-- Without any occurrence of the separator, splitting returns the whole
text. -/
theorem splitOnAux_no_occur (sep : List Char) :
    ∀ (f : ℕ) (xs : List Char), xs.length ≤ f →
      (∀ i, ¬ sep.isPrefixOf (xs.drop i) = true) → splitOnAux sep f xs = [xs] := by
  intro f
  induction f with
  | zero =>
    intro xs h1 _
    have hx : xs = [] := List.length_eq_zero.mp (Nat.le_zero.mp h1)
    subst hx
    rfl
  | succ f ih =>
    intro xs h1 h2
    cases xs with
    | nil => rfl
    | cons x rest =>
      simp only [splitOnAux]
      rw [if_neg (fun hp => h2 0 (by simpa using hp.2))]
      rw [ih rest (by simp only [List.length_cons] at h1; omega)
        (fun i => by simpa [List.drop_succ_cons] using h2 (i + 1))]

/-- Splitting a text whose first separator occurrence is exactly between `a`
and `b` yields `a` and the splitting of `b`. -/
theorem splitOnAux_split (sep : List Char) (hsep : sep ≠ []) :
    ∀ (a b : List Char) (f : ℕ), (a ++ sep ++ b).length ≤ f →
      (∀ i < a.length, ¬ sep.isPrefixOf ((a ++ sep ++ b).drop i) = true) →
      splitOnAux sep f (a ++ sep ++ b) = a :: splitOnAux sep b.length b := by
  intro a
  induction a with
  | nil =>
    intro b f h1 _
    rcases hsc : sep with _ | ⟨s0, st⟩
    · exact absurd hsc hsep
    · subst hsc
      cases f with
      | zero => simp at h1
      | succ f =>
        show splitOnAux (s0 :: st) (f + 1) ([] ++ (s0 :: st) ++ b) = _
        simp only [List.nil_append, List.cons_append, splitOnAux]
        rw [if_pos ⟨List.cons_ne_nil s0 st,
          List.isPrefixOf_iff_prefix.mpr (by
            simpa [List.cons_append] using List.prefix_append (s0 :: st) b)⟩]
        have hd : (s0 :: (st ++ b)).drop (s0 :: st).length = b := by
          simpa [List.cons_append] using List.drop_left (s0 :: st) b
        simp only [List.append_eq]
        rw [hd]
        congr 1
        apply splitOnAux_fuel (s0 :: st) (List.cons_ne_nil s0 st)
        · simp only [List.nil_append, List.length_append, List.length_cons] at h1
          omega
        · exact le_refl _
  | cons x a' iha =>
    intro b f h1 h2
    cases f with
    | zero => simp at h1
    | succ f =>
      show splitOnAux sep (f + 1) ((x :: a') ++ sep ++ b) = _
      simp only [List.cons_append, splitOnAux]
      rw [if_neg (fun hp => h2 0 (by simp) (by
        simpa [List.cons_append] using hp.2))]
      have hrec : splitOnAux sep f (a' ++ sep ++ b) =
          a' :: splitOnAux sep b.length b := by
        apply iha b f
        · simp only [List.length_append, List.length_cons] at h1 ⊢
          omega
        · intro i hi
          have := h2 (i + 1) (by simp only [List.length_cons]; omega)
          simpa [List.cons_append, List.drop_succ_cons] using this
      simpa [List.cons_append] using congrArg (fun l =>
        match l with
        | [] => [[x]]
        | y :: ys => (x :: y) :: ys) hrec

/-- The marker cannot occur strictly inside the prefix `a` of
`a ++ marker ++ b` when `a` carries no `J` and ends in a newline: an
occurrence would either put the marker's `J` inside `a` or force `a`'s last
character to be a dash. -/
theorem marker_no_early_occur (a b : List Char) (hJ : 'J' ∉ a)
    (hlast : a.getLast? = some '\n') :
    ∀ i < a.length, ¬ markerChars.isPrefixOf
      ((a ++ markerChars ++ b).drop i) = true := by
  intro i hi hp
  have hne : a ≠ [] := by
    intro h
    rw [h] at hlast
    exact Option.noConfusion hlast
  rw [List.isPrefixOf_iff_prefix] at hp
  obtain ⟨t, ht⟩ := hp
  have hget : ∀ j, j < markerChars.length →
      (a ++ markerChars ++ b)[i + j]? = markerChars[j]? := by
    intro j hj
    have h1 : (List.drop i (a ++ markerChars ++ b))[j]? =
        (a ++ markerChars ++ b)[i + j]? := List.getElem?_drop _ _ _
    rw [← h1, ← ht, List.getElem?_append_left hj]
  by_cases hcase : i + 3 < a.length
  · have h3 : (a ++ markerChars ++ b)[i + 3]? = some 'J' := hget 3 (by decide)
    rw [List.append_assoc, List.getElem?_append_left hcase] at h3
    exact hJ (List.getElem?_mem h3)
  · have hlt : a.length - 1 - i < markerChars.length := by
      show a.length - 1 - i < 15
      omega
    have h4 := hget (a.length - 1 - i) hlt
    have hidx : i + (a.length - 1 - i) = a.length - 1 := by omega
    rw [hidx] at h4
    have hlen1 : a.length - 1 < a.length := by omega
    rw [List.append_assoc, List.getElem?_append_left hlen1] at h4
    rw [← List.getLast?_eq_getElem?, hlast] at h4
    have h5 : a.length - 1 - i ≤ 2 := by omega
    set k := a.length - 1 - i with hk
    interval_cases k <;> exact absurd h4 (by decide)

/-! ### Stripping and character classes -/

/-- Stripping the text after the marker peels exactly the leading newline
off the serialised summary. -/
theorem stripChars_json (j : Json360) :
    stripChars ('\n' :: json360Chars j) = json360Chars j := by
  have h1 : List.dropWhile isPyWs ('\n' :: json360Chars j) = json360Chars j := by
    rw [List.dropWhile_cons, if_pos (by decide)]
    unfold json360Chars
    rw [List.dropWhile_cons, if_neg (by decide)]
  have hrev : (json360Chars j).reverse =
      rbrace :: (((fields360.map (fieldChars j)).flatten).reverse ++ [lbrace]) := by
    simp [json360Chars, List.reverse_cons, List.reverse_append]
  have h2 : ((json360Chars j).reverse).dropWhile isPyWs =
      (json360Chars j).reverse := by
    rw [hrev, List.dropWhile_cons, if_neg (by decide), ← hrev]
  unfold stripChars
  rw [h1, h2, List.reverse_reverse]

/-- A character of an interspersed list is the separator or from the list. -/
theorem mem_intersperse {α : Type} (sep a : α) :
    ∀ (l : List α), a ∈ List.intersperse sep l → a = sep ∨ a ∈ l
  | [] => by simp [List.intersperse]
  | [x] => by simp [List.intersperse]; tauto
  | x :: y :: zs => by
    intro h
    simp only [List.intersperse, List.mem_cons] at h
    rcases h with h | h | h
    · exact Or.inr (by simp [h])
    · exact Or.inl h
    · rcases mem_intersperse sep a (y :: zs) h with h' | h'
      · exact Or.inl h'
      · exact Or.inr (List.mem_cons_of_mem _ h')

/-- A character of an intercalated list is from the separator or from one of
the chunks. -/
theorem mem_intercalate {α : Type} (sep : List α) (a : α)
    (xs : List (List α)) (h : a ∈ List.intercalate sep xs) :
    a ∈ sep ∨ ∃ x ∈ xs, a ∈ x := by
  unfold List.intercalate at h
  obtain ⟨t, ht, hat⟩ := List.mem_flatten.mp h
  rcases mem_intersperse sep t xs ht with h' | h'
  · exact Or.inl (h' ▸ hat)
  · exact Or.inr ⟨t, h', hat⟩

/-- Characters of `group3` output come from the input or are commas. -/
theorem mem_group3 (a : Char) : ∀ (l : List Char), a ∈ group3 l →
    a ∈ l ∨ a = ','
  | [] => by simp [group3]
  | [d1] => by simp [group3]; tauto
  | [d1, d2] => by simp [group3]; tauto
  | [d1, d2, d3] => by simp [group3]; tauto
  | d1 :: d2 :: d3 :: d4 :: rest => by
    intro h
    simp only [group3, List.mem_cons] at h
    rcases h with h | h | h | h | h
    · exact Or.inl (by simp [h])
    · exact Or.inl (by simp [h])
    · exact Or.inl (by simp [h])
    · exact Or.inr h
    · rcases mem_group3 a (d4 :: rest) h with h' | h'
      · rcases List.mem_cons.mp h' with h'' | h''
        · exact Or.inl (by simp [h''])
        · exact Or.inl (by simp [List.mem_cons, h''])
      · exact Or.inr h'
  termination_by l => l.length

/-- Character class of a rendered natural with separators. -/
theorem mem_natCommaChars (n : ℕ) (c : Char) (h : c ∈ natCommaChars n) :
    c.isDigit = true ∨ c = ',' := by
  unfold natCommaChars at h
  rw [List.mem_reverse] at h
  rcases mem_group3 c _ h with h' | h'
  · exact Or.inl (natChars_digits n c (List.mem_reverse.mp h'))
  · exact Or.inr h'

/-- Character class of a rendered integer. -/
theorem mem_intChars (z : ℤ) (c : Char) (h : c ∈ intChars z) :
    c.isDigit = true ∨ c = '-' := by
  unfold intChars at h
  rcases List.mem_append.mp h with h' | h'
  · split at h'
    · exact Or.inr (by simpa using h')
    · simp at h'
  · exact Or.inl (natChars_digits _ c h')

/-- Character class of a rendered integer with separators. -/
theorem mem_intCommaChars (z : ℤ) (c : Char)
    (h : c ∈ intCommaChars z) : c.isDigit = true ∨ c = '-' ∨ c = ',' := by
  unfold intCommaChars at h
  rcases List.mem_append.mp h with h' | h'
  · split at h'
    · exact Or.inr (Or.inl (by simpa using h'))
    · simp at h'
  · rcases mem_natCommaChars _ c h' with h'' | h''
    · exact Or.inl h''
    · exact Or.inr (Or.inr h'')

/-- Character class of the fixed two-decimal rendering. -/
theorem mem_fmtF2 (q : ℚ) (c : Char) (h : c ∈ fmtF2 q) :
    c.isDigit = true ∨ c = '-' ∨ c = '.' := by
  have hd1 : (digitChar ((round (q * 100)).natAbs % 100 / 10)).isDigit = true :=
    (digitChar_spec _ (by omega)).1
  have hd2 : (digitChar ((round (q * 100)).natAbs % 10)).isDigit = true :=
    (digitChar_spec _ (by omega)).1
  have hnat := natChars_digits ((round (q * 100)).natAbs / 100)
  simp only [fmtF2] at h
  by_cases hneg : round (q * 100) < 0
  · rw [if_pos hneg] at h
    simp only [List.singleton_append, List.mem_cons, List.mem_append,
      List.mem_singleton] at h
    rcases h with (h | h) | h | h | h | h
    · exact Or.inr (Or.inl h)
    · exact Or.inl (hnat c h)
    · exact Or.inr (Or.inr h)
    · exact Or.inl (h ▸ hd1)
    · exact Or.inl (h ▸ hd2)
    · exact absurd h (List.not_mem_nil _)
  · rw [if_neg hneg] at h
    simp only [List.nil_append, List.mem_append, List.mem_cons,
      List.mem_singleton] at h
    rcases h with h | h | h | h | h
    · exact Or.inl (hnat c h)
    · exact Or.inr (Or.inr h)
    · exact Or.inl (h ▸ hd1)
    · exact Or.inl (h ▸ hd2)
    · exact absurd h (List.not_mem_nil _)

/-- Character class of the comma-grouped two-decimal rendering. -/
theorem mem_fmtComma2 (q : ℚ) (c : Char) (h : c ∈ fmtComma2 q) :
    c.isDigit = true ∨ c = '-' ∨ c = '.' ∨ c = ',' := by
  have hd1 : (digitChar ((round (q * 100)).natAbs % 100 / 10)).isDigit = true :=
    (digitChar_spec _ (by omega)).1
  have hd2 : (digitChar ((round (q * 100)).natAbs % 10)).isDigit = true :=
    (digitChar_spec _ (by omega)).1
  have hcc : ∀ h' : c ∈ natCommaChars ((round (q * 100)).natAbs / 100),
      c.isDigit = true ∨ c = '-' ∨ c = '.' ∨ c = ',' := by
    intro h'
    rcases mem_natCommaChars _ c h' with h'' | h''
    · exact Or.inl h''
    · exact Or.inr (Or.inr (Or.inr h''))
  simp only [fmtComma2] at h
  by_cases hneg : round (q * 100) < 0
  · rw [if_pos hneg] at h
    simp only [List.singleton_append, List.mem_cons, List.mem_append,
      List.mem_singleton] at h
    rcases h with (h | h) | h | h | h | h
    · exact Or.inr (Or.inl h)
    · exact hcc h
    · exact Or.inr (Or.inr (Or.inl h))
    · exact Or.inl (h ▸ hd1)
    · exact Or.inl (h ▸ hd2)
    · exact absurd h (List.not_mem_nil _)
  · rw [if_neg hneg] at h
    simp only [List.nil_append, List.mem_append, List.mem_cons,
      List.mem_singleton] at h
    rcases h with h | h | h | h | h
    · exact hcc h
    · exact Or.inr (Or.inr (Or.inl h))
    · exact Or.inl (h ▸ hd1)
    · exact Or.inl (h ▸ hd2)
    · exact absurd h (List.not_mem_nil _)

/-- Character class of the fixed one-decimal rendering. -/
theorem mem_fmtF1 (q : ℚ) (c : Char) (h : c ∈ fmtF1 q) :
    c.isDigit = true ∨ c = '-' ∨ c = '.' := by
  have hd1 : (digitChar ((round (q * 10)).natAbs % 10)).isDigit = true :=
    (digitChar_spec _ (by omega)).1
  have hnat := natChars_digits ((round (q * 10)).natAbs / 10)
  simp only [fmtF1] at h
  by_cases hneg : round (q * 10) < 0
  · rw [if_pos hneg] at h
    simp only [List.singleton_append, List.mem_cons, List.mem_append,
      List.mem_singleton] at h
    rcases h with (h | h) | h | h | h
    · exact Or.inr (Or.inl h)
    · exact Or.inl (hnat c h)
    · exact Or.inr (Or.inr h)
    · exact Or.inl (h ▸ hd1)
    · exact absurd h (List.not_mem_nil _)
  · rw [if_neg hneg] at h
    simp only [List.nil_append, List.mem_append, List.mem_cons,
      List.mem_singleton] at h
    rcases h with h | h | h | h
    · exact Or.inl (hnat c h)
    · exact Or.inr (Or.inr h)
    · exact Or.inl (h ▸ hd1)
    · exact absurd h (List.not_mem_nil _)

/-- Character class of the rounded-integer rendering. -/
theorem mem_fmtF0 (q : ℚ) (c : Char) (h : c ∈ fmtF0 q) :
    c.isDigit = true ∨ c = '-' :=
  mem_intChars _ c h

/-! ### The marker character `J` never occurs in the narrative -/

/-- An element absent from both halves is absent from their concatenation. -/
theorem notMemAppend {α : Type} {a : α} {l1 l2 : List α} (h1 : a ∉ l1)
    (h2 : a ∉ l2) : a ∉ l1 ++ l2 :=
  fun h => (List.mem_append.mp h).elim h1 h2

/-- Decimal digit runs never contain `J`. -/
theorem noJ_natChars (n : ℕ) : 'J' ∉ natChars n :=
  fun h => absurd (natChars_digits n 'J' h) (by decide)

/-- Rendered integers never contain `J`. -/
theorem noJ_intChars (z : ℤ) : 'J' ∉ intChars z :=
  fun h => by rcases mem_intChars z 'J' h with h' | h' <;> exact absurd h' (by decide)

/-- Comma-grouped integers never contain `J`. -/
theorem noJ_intCommaChars (z : ℤ) : 'J' ∉ intCommaChars z :=
  fun h => by
    rcases mem_intCommaChars z 'J' h with h' | h' | h' <;> exact absurd h' (by decide)

/-- Two-decimal renderings never contain `J`. -/
theorem noJ_fmtF2 (q : ℚ) : 'J' ∉ fmtF2 q :=
  fun h => by rcases mem_fmtF2 q 'J' h with h' | h' | h' <;> exact absurd h' (by decide)

/-- Comma-grouped two-decimal renderings never contain `J`. -/
theorem noJ_fmtComma2 (q : ℚ) : 'J' ∉ fmtComma2 q :=
  fun h => by
    rcases mem_fmtComma2 q 'J' h with h' | h' | h' | h' <;> exact absurd h' (by decide)

/-- One-decimal renderings never contain `J`. -/
theorem noJ_fmtF1 (q : ℚ) : 'J' ∉ fmtF1 q :=
  fun h => by rcases mem_fmtF1 q 'J' h with h' | h' | h' <;> exact absurd h' (by decide)

/-- Characters of the period label are digits, dashes, or from `" al "`. -/
theorem period_chars (e : Env360) (h1 : DateOk e.start_date)
    (h2 : DateOk e.end_date) (c : Char) (hm : c ∈ (period_label e).data) :
    c.isDigit = true ∨ c = '-' ∨ c ∈ chrs " al " := by
  unfold period_label at hm
  split at hm
  · rw [String.data_append, String.data_append] at hm
    rcases List.mem_append.mp hm with hm | hm
    · rcases List.mem_append.mp hm with hm | hm
      · rcases h1.2 c hm with h | h
        · exact Or.inl h
        · exact Or.inr (Or.inl h)
      · exact Or.inr (Or.inr hm)
    · rcases h2.2 c hm with h | h
      · exact Or.inl h
      · exact Or.inr (Or.inl h)
  · rcases h1.2 c hm with h | h
    · exact Or.inl h
    · exact Or.inr (Or.inl h)

/-- The period label never contains `J`. -/
theorem noJ_period (e : Env360) (h1 : DateOk e.start_date)
    (h2 : DateOk e.end_date) : 'J' ∉ chrs (period_label e) :=
  fun hm => by
    rcases period_chars e h1 h2 'J' hm with h | h | h <;> exact absurd h (by decide)

/-- The period label never contains a double quote. -/
theorem noQuote_period (e : Env360) (h1 : DateOk e.start_date)
    (h2 : DateOk e.end_date) : '"' ∉ (period_label e).data :=
  fun hm => by
    rcases period_chars e h1 h2 '"' hm with h | h | h <;> exact absurd h (by decide)

/-- The pending-ids line never contains `J`. -/
theorem noJ_idsLine (e : Env360) : 'J' ∉ idsLine e := by
  unfold idsLine
  split
  · intro hm
    rcases List.mem_append.mp hm with hm | hm
    · rcases List.mem_append.mp hm with hm | hm
      · exact absurd hm (by decide)
      · rcases mem_intercalate _ 'J' _ hm with hs | ⟨x, hx, hcx⟩
        · exact absurd hs (by decide)
        · obtain ⟨o, _, rfl⟩ := List.mem_map.mp hx
          rcases List.mem_cons.mp hcx with h | h
          · exact absurd h (by decide)
          · exact noJ_intChars _ h
    · exact absurd hm (by decide)
  · exact List.not_mem_nil _

section

attribute [local irreducible] fmtF2 fmtComma2 fmtF1 intChars intCommaChars natChars natCommaChars
attribute [local irreducible] period_label idsLine pendSection no_pagados pagados entregados
attribute [local irreducible] devoluciones pendientes cancelados shopify_orders_count
attribute [local irreducible] dropi_orders_count cancelaciones_pre_envio tasa_cancelacion
attribute [local irreducible] tasa_entrega ganancia_entregados fletes_devoluciones
attribute [local irreducible] ganancia_confirmada monto_pagado monto_pendiente_pago meta_spend
attribute [local irreducible] meta_clicks meta_impressions roas cpa_real profit_neto
attribute [local irreducible] ganancia_potencial_pendientes fletes_potenciales_pendientes

/-- The pending-projection section never contains `J`. -/
theorem noJ_pendSection (e : Env360) : 'J' ∉ pendSection e := by
  rw [pendSection]
  split
  · repeat' apply notMemAppend
    all_goals first
      | exact noJ_natChars _
      | exact noJ_fmtComma2 _
      | decide
  · exact List.not_mem_nil _

/-- The narrative part of the `analisis_360` report never contains `J` when
the dates are well formed. -/
theorem noJ_narr360 (e : Env360) (h1 : DateOk e.start_date)
    (h2 : DateOk e.end_date) : 'J' ∉ narr360 e := by
  unfold narr360
  repeat' apply notMemAppend
  all_goals first
    | exact noJ_period e h1 h2
    | exact noJ_idsLine e
    | exact noJ_pendSection e
    | exact noJ_natChars _
    | exact noJ_intChars _
    | exact noJ_intCommaChars _
    | exact noJ_fmtF1 _
    | exact noJ_fmtF2 _
    | exact noJ_fmtComma2 _
    | (split <;> decide)
    | decide

/-- The serialised summary of a report never contains `J` when the dates are
well formed: its keys, numbers and string values avoid it. -/
theorem noJ_json360Chars (e : Env360) (h1 : DateOk e.start_date)
    (h2 : DateOk e.end_date) : 'J' ∉ json360Chars (json_data e) := by
  intro hm
  unfold json360Chars at hm
  rcases List.mem_cons.mp hm with h | h
  · exact absurd h (by decide)
  rcases List.mem_append.mp h with h | h
  · rcases List.mem_flatten.mp h with ⟨t, ht, hat⟩
    rcases List.mem_map.mp ht with ⟨f, hf, rfl⟩
    fin_cases hf <;>
      simp only [fieldChars, json_data] at hat <;>
      first
        | (rcases List.mem_append.mp hat with h' | h'
           · exact absurd h' (by decide)
           · first
               | exact noJ_intChars _ h'
               | exact noJ_fmtF2 _ h')
        | (rcases List.mem_append.mp hat with h' | h'
           · rcases List.mem_append.mp h' with h'' | h''
             · exact absurd h'' (by decide)
             · first
                 | exact noJ_period e h1 h2 h''
                 | exact absurd h'' (by decide)
           · exact absurd h' (by decide))
  · exact absurd h (by decide)

/-- Rounding to two decimals is idempotent. -/
theorem round2_idem (q : ℚ) : round2 (round2 q) = round2 q := by
  unfold round2
  rw [div_mul_cancel₀ _ (by norm_num : (100:ℚ) ≠ 0), round_intCast]

/-- Every field of a report summary satisfies the parser's side conditions:
strings are quote-free and two-decimal values are fixed by rounding. -/
theorem fieldOk_json_data (e : Env360) (h1 : DateOk e.start_date)
    (h2 : DateOk e.end_date) : ∀ f ∈ fields360, fieldOk (json_data e) f := by
  intro f hf
  fin_cases hf <;>
    first
      | trivial
      | exact round2_idem _
      | exact noQuote_period e h1 h2
      | exact (by decide : '"' ∉ CURRENCY_SYMBOL.data)

/-- The narrative followed by the blank line ends in a newline. -/
theorem narr_last (e : Env360) :
    (narr360 e ++ chrs "\n\n").getLast? = some '\n' := by
  rw [show chrs "\n\n" = ['\n'] ++ ['\n'] from rfl, ← List.append_assoc]
  exact List.getLast?_concat _

/-- The marker never occurs in a `J`-free text. -/
theorem marker_no_occur_of_noJ (b : List Char) (hJ : 'J' ∉ b) :
    ∀ i, ¬ markerChars.isPrefixOf (b.drop i) = true := by
  intro i hp
  rw [List.isPrefixOf_iff_prefix] at hp
  obtain ⟨t, ht⟩ := hp
  have h3 : (b.drop i)[3]? = some 'J' := by
    rw [← ht, List.getElem?_append_left (by decide)]
    rfl
  rw [List.getElem?_drop] at h3
  exact hJ (List.getElem?_mem h3)

/-- Extraction of the structured block from a well-shaped result text:
a `J`-free narrative ending in a newline, the marker, a newline, and a
serialised summary whose fields meet the parser's side conditions. -/
theorem extractJsonData_split (a : List Char) (j : Json360)
    (hJa : 'J' ∉ a) (hlast : a.getLast? = some '\n')
    (hJj : 'J' ∉ json360Chars j) (hok : ∀ f ∈ fields360, fieldOk j f) :
    extractJsonData ⟨a ++ markerChars ++ ('\n' :: json360Chars j)⟩ = some j := by
  have hb : ∀ i, ¬ markerChars.isPrefixOf (('\n' :: json360Chars j).drop i) = true := by
    apply marker_no_occur_of_noJ
    intro hm
    rcases List.mem_cons.mp hm with h | h
    · exact absurd h (by decide)
    · exact hJj h
  have hsplit : splitOnL markerChars (a ++ markerChars ++ ('\n' :: json360Chars j)) =
      a :: splitOnAux markerChars ('\n' :: json360Chars j).length
        ('\n' :: json360Chars j) := by
    unfold splitOnL
    exact splitOnAux_split markerChars (by decide) a _ _ (le_refl _)
      (marker_no_early_occur a _ hJa hlast)
  have hone : splitOnAux markerChars ('\n' :: json360Chars j).length
      ('\n' :: json360Chars j) = ['\n' :: json360Chars j] :=
    splitOnAux_no_occur markerChars _ _ (le_refl _) hb
  have hc : containsSub markerChars (a ++ markerChars ++ ('\n' :: json360Chars j)) = true := by
    rw [List.append_assoc]
    exact containsSub_mid a markerChars _
  unfold extractJsonData
  rw [if_pos hc, hsplit, hone]
  show loads360 (stripChars ('\n' :: json360Chars j)) = some j
  rw [stripChars_json]
  exact loads360_json360Chars j hok

end

/-- Claim C7: round-trip — for every `analisis_360` report produced from
well-formed dates, splitting the produced text on the `---JSON_DATA---`
marker and JSON-parsing the trailing block reproduces exactly the summary
record (each value rounded to two decimals) that was used to build the
narrative, with no further precision loss. -/
theorem C7_roundtrip (e : Env360) (h1 : DateOk e.start_date)
    (h2 : DateOk e.end_date) :
    extractJsonData (analisis_360 e) = some (json_data e) := by
  unfold analisis_360
  rw [if_neg (fun h => h.elim h1.1 h2.1)]
  unfold analisis360Chars
  exact extractJsonData_split (narr360 e ++ chrs "\n\n") (json_data e)
    (notMemAppend (noJ_narr360 e h1 h2) (by decide)) (narr_last e)
    (noJ_json360Chars e h1 h2) (fieldOk_json_data e h1 h2)

/-- Witness for C7 at a concrete fully-populated environment. -/
theorem C7_roundtrip_witness :
    extractJsonData (analisis_360 envW) = some (json_data envW) :=
  C7_roundtrip envW (by decide) (by decide)
